import Mathlib

set_option maxHeartbeats 1000000

/-!
Verification development for the Ballistic Core Engine (BCE).

Shallow embedding of the BCE library (lib/bce/src) in Lean 4.

Modelling conventions:
  - C++ `float` values are modelled as real numbers (`ℝ`) where transcendental
    functions (sqrt, sin, cos, exp, asin, atan2) are involved, and as rationals
    (`ℚ`) where the code performs only field arithmetic and comparisons.
  - Raw sensor channel values, which may be NaN or infinite, are modelled by
    the inductive type `Fl` (a rational payload or one of the three non-finite
    classes), with IEEE-754 comparison semantics (every comparison with NaN is
    false).  Internal engine state is always finite in the source (each store
    is guarded by a finiteness check or a clamp), so state fields use ℚ/ℝ.
  - `uint32_t` bitmaps are modelled as ℕ with Nat bitwise operations, and
    `uint64_t` timestamps as ℕ.
  - C++ `while` loops are modelled as fuel recursion, with the fuel taken from
    the loop's own iteration bound (`BCE_MAX_SOLVER_ITERATIONS`,
    `BCE_ZERO_MAX_ITERATIONS`) or, for loops bounded only by a monotonicity
    argument (table fill, binary search), a fuel that provably dominates the
    iteration count, so the Lean function computes the same result.
  - The float literal `BCE_PI = 3.14159265358979323846f` is idealised as
    `Real.pi`, consistent with the real-number idealisation of float math.
-/

/-! Constants from include/bce/bce_config.h. -/

def BCE_MAX_RANGE_M : ℕ := 2500

def BCE_TRAJ_TABLE_SIZE : ℕ := BCE_MAX_RANGE_M + 1

def BCE_DEFAULT_ALTITUDE_M : ℚ := 0

def BCE_DEFAULT_PRESSURE_PA : ℚ := 101325

def BCE_DEFAULT_TEMPERATURE_C : ℚ := 15

def BCE_DEFAULT_HUMIDITY : ℚ := 1/2

def BCE_OMEGA_EARTH : ℚ := 72921/1000000000

def BCE_GRAVITY : ℚ := 980665/100000

def BCE_R_DRY_AIR : ℚ := 28705/100

def BCE_SPEED_OF_SOUND_15C : ℚ := 34029/100

def BCE_STD_AIR_DENSITY : ℚ := 1225/1000

def BCE_STD_PRESSURE_PA : ℚ := 101325

def BCE_KELVIN_OFFSET : ℚ := 27315/100

def BCE_GRAINS_TO_KG : ℚ := 6479891/100000000000

def BCE_INCHES_TO_M : ℚ := 254/10000

def BCE_MM_TO_M : ℚ := 1/1000

def BCE_AHRS_STATIC_WINDOW : ℕ := 64

def BCE_AHRS_STATIC_THRESHOLD : ℚ := 5/100

def BCE_LRF_STALE_US : ℕ := 2000000

def BCE_LRF_MIN_CONFIDENCE : ℚ := 1/2

def BCE_MIN_VELOCITY : ℚ := 30

def BCE_BALLISTIC_DRAG_CONSTANT : ℚ := 900

def BCE_EXTERNAL_REFERENCE_DRAG_SCALE : ℚ := 84/100

def BCE_DEFAULT_DRAG_REFERENCE_SCALE : ℚ := 1

def BCE_MAX_SOLVER_ITERATIONS : ℕ := 500000

def BCE_DT_MIN : ℚ := 1/100000

def BCE_DT_MAX : ℚ := 1/1000

def BCE_MAX_STEP_DISTANCE_M : ℚ := 1/4

def BCE_ZERO_TOLERANCE_M : ℚ := 1/1000

def BCE_ZERO_MAX_ITERATIONS : ℕ := 50

def BCE_ZERO_RECOMPUTE_BC_FACTOR_DELTA : ℚ := 15/10000

def BCE_ZERO_RECOMPUTE_DENSITY_DELTA : ℚ := 5/1000

def BCE_ZERO_RECOMPUTE_SOS_DELTA : ℚ := 3/4

def BCE_MAG_MIN_FIELD_UT : ℚ := 20

def BCE_MAG_MAX_FIELD_UT : ℚ := 70

def BCE_LRF_FILTER_ALPHA : ℚ := 1/5

/-! Fault and diagnostic bit masks from include/bce/bce_types.h. -/

namespace BCE_Fault

def NO_RANGE : ℕ := 1

def NO_BULLET : ℕ := 2

def NO_MV : ℕ := 4

def NO_BC : ℕ := 8

def ZERO_UNSOLVABLE : ℕ := 16

def AHRS_UNSTABLE : ℕ := 32

def SENSOR_INVALID : ℕ := 64

end BCE_Fault

namespace BCE_Diag

def CORIOLIS_DISABLED : ℕ := 1

def DEFAULT_PRESSURE : ℕ := 2

def DEFAULT_TEMP : ℕ := 4

def DEFAULT_HUMIDITY : ℕ := 8

def DEFAULT_ALTITUDE : ℕ := 16

def DEFAULT_WIND : ℕ := 32

def MAG_SUPPRESSED : ℕ := 64

def LRF_STALE : ℕ := 128

end BCE_Diag

/-- Operating modes of the engine state machine (bce_types.h). -/
inductive BCE_Mode where
  | IDLE
  | SOLUTION_READY
  | FAULT
deriving DecidableEq, Repr

/-- Numeric value of a mode as published in FiringSolution.solution_mode. -/
def BCE_Mode.toU32 : BCE_Mode → ℕ
  | .IDLE => 0
  | .SOLUTION_READY => 1
  | .FAULT => 2

/-- Drag model selector G1..G8 (bce_types.h). -/
inductive DragModel where
  | G1 | G2 | G3 | G4 | G5 | G6 | G7 | G8
deriving DecidableEq, Repr

/-- AHRS filter selector (bce_types.h). -/
inductive AHRS_Algorithm where
  | MADGWICK
  | MAHONY
deriving DecidableEq, Repr

/-! Model of a raw C++ float sensor value: either a finite value (rational
payload) or one of the non-finite classes.  Comparisons follow IEEE-754:
every ordered comparison involving NaN is false; infinities are ordered. -/

inductive Fl where
  | fin : ℚ → Fl
  | nan : Fl
  | pinf : Fl
  | ninf : Fl
deriving DecidableEq, Repr

namespace Fl

/-- std::isfinite. -/
def isFinite : Fl → Bool
  | .fin _ => true
  | _ => false

/-- IEEE less-than. -/
def lt : Fl → Fl → Bool
  | .fin a, .fin b => a < b
  | .fin _, .pinf => true
  | .ninf, .fin _ => true
  | .ninf, .pinf => true
  | _, _ => false

/-- IEEE less-or-equal. -/
def le : Fl → Fl → Bool
  | .fin a, .fin b => a ≤ b
  | .fin _, .pinf => true
  | .ninf, .fin _ => true
  | .ninf, .pinf => true
  | .pinf, .pinf => true
  | .ninf, .ninf => true
  | _, _ => false

/-- Payload of a finite value (meaningful only on the finite-checked paths). -/
def toQ : Fl → ℚ
  | .fin a => a
  | _ => 0

end Fl

/-! Drag table lookup (drag/drag_model.cpp).  The interpolation routine is
generic in the scalar field so the same definition serves the rational
(executable) instance and the real instance used inside the integrator. -/

/-- One (Mach, Cd) table entry; `DragPoint` in drag_tables.h. -/
def DragPoint (α : Type) : Type := α × α

namespace DragModelLookup

/-- Binary-search loop of DragModelLookup::interpolate (drag_model.cpp lines
34-42).  The C++ `while (hi - lo > 1)` loop terminates because the bracket
[lo, hi] strictly shrinks; the fuel argument (instantiated with the table
size, which dominates hi - lo) makes the recursion structural without
changing the computed result. -/
def binSearch {α : Type} [LinearOrderedField α] (tbl : List (α × α)) (m : α) :
    ℕ → ℕ → ℕ → ℕ × ℕ
  | 0, lo, hi => (lo, hi)
  | fuel + 1, lo, hi =>
    if hi - lo > 1 then
      let mid := (lo + hi) / 2
      if (tbl.getD mid (0, 0)).1 ≤ m then binSearch tbl m fuel mid hi
      else binSearch tbl m fuel lo mid
    else (lo, hi)

/-- DragModelLookup::interpolate (drag_model.cpp lines 27-47): clamp below the
first Mach point and above the last, otherwise binary-search the bracketing
interval and interpolate linearly. -/
def interpolate {α : Type} [LinearOrderedField α] (tbl : List (α × α)) (m : α) : α :=
  let size := tbl.length
  if m ≤ (tbl.getD 0 (0, 0)).1 then (tbl.getD 0 (0, 0)).2
  else if (tbl.getD (size - 1) (0, 0)).1 ≤ m then (tbl.getD (size - 1) (0, 0)).2
  else
    let lh := binSearch tbl m size 0 (size - 1)
    let p := tbl.getD lh.1 (0, 0)
    let q := tbl.getD lh.2 (0, 0)
    p.2 + (m - p.1) / (q.1 - p.1) * (q.2 - p.2)

end DragModelLookup

/-- Modelled from the spec: the tabulated (Mach, Cd) points of the standard
drag curves live in drag_tables.h, which is not part of src/; the spec
describes each curve only as a tabulation of Cd versus Mach for the
reference projectile shape, interpolated piecewise-linearly.  These are
representative strictly-increasing tabulations standing in for that data. -/
def dragTable : DragModel → List (ℚ × ℚ)
  | .G1 => [(0, 2629/10000), (1/2, 2034/10000), (8/10, 2165/10000),
            (9/10, 2475/10000), (1, 4805/10000), (11/10, 5883/10000),
            (12/10, 6393/10000), (3/2, 6201/10000), (2, 5883/10000),
            (3, 5133/10000), (4, 4988/10000), (5, 4950/10000)]
  | .G2 => [(0, 23/100), (9/10, 25/100), (11/10, 38/100), (2, 30/100), (5, 21/100)]
  | .G3 => [(0, 24/100), (9/10, 27/100), (11/10, 39/100), (2, 31/100), (5, 22/100)]
  | .G4 => [(0, 25/100), (9/10, 28/100), (11/10, 40/100), (2, 32/100), (5, 23/100)]
  | .G5 => [(0, 171/1000), (9/10, 195/1000), (11/10, 38/100), (2, 30/100), (5, 19/100)]
  | .G6 => [(0, 2487/10000), (9/10, 2812/10000), (11/10, 4105/10000),
            (2, 3193/10000), (5, 2213/10000)]
  | .G7 => [(0, 1198/10000), (8/10, 1165/10000), (9/10, 1211/10000),
            (1, 3803/10000), (12/10, 4015/10000), (2, 2993/10000),
            (3, 2404/10000), (5, 1618/10000)]
  | .G8 => [(0, 2105/10000), (9/10, 2184/10000), (11/10, 3985/10000),
            (2, 2920/10000), (5, 1970/10000)]

/-- Cast a rational drag table into the working scalar field. -/
def castTable (α : Type) [LinearOrderedField α] (tbl : List (ℚ × ℚ)) :
    List (α × α) :=
  tbl.map (fun p => ((p.1 : α), (p.2 : α)))

namespace DragModelLookup

/-- DragModelLookup::getCd (drag_model.cpp lines 11-25): clamp negative Mach
to zero and interpolate in the selected model's table. -/
def getCd {α : Type} [LinearOrderedField α] (model : DragModel) (mach : α) : α :=
  let mach := if mach < 0 then 0 else mach
  interpolate (castTable α (dragTable model)) mach

/-- DragModelLookup::getDeceleration (drag_model.cpp lines 49-94). -/
def getDeceleration {α : Type} [LinearOrderedField α]
    (velocity_ms speed_of_sound bc_corrected : α) (model : DragModel)
    (air_density : α) : α :=
  if velocity_ms < 1 then 0
  else if bc_corrected < 1/1000 then 0
  else
    let mach := velocity_ms / speed_of_sound
    let cd := getCd model mach
    let density_ratio := air_density / (BCE_STD_AIR_DENSITY : α)
    cd * density_ratio * velocity_ms * velocity_ms /
      (bc_corrected * (BCE_BALLISTIC_DRAG_CONSTANT : α))

end DragModelLookup

/-! Real-valued conversion constants (bce_config.h).  The float literal for pi
is idealised as the real pi. -/

noncomputable def BCE_PI : ℝ := Real.pi

noncomputable def BCE_DEG_TO_RAD : ℝ := BCE_PI / 180

noncomputable def BCE_RAD_TO_DEG : ℝ := 180 / BCE_PI

noncomputable def BCE_MOA_TO_RAD : ℝ := BCE_PI / (180 * 60)

noncomputable def BCE_RAD_TO_MOA : ℝ := 180 * 60 / BCE_PI

/-! Atmosphere (atmo/atmosphere.h, atmo/atmosphere.cpp).  The sanitised state
fields (pressure, temperature, humidity, altitude, baro offset) are rational:
every store to them in the source is clamp-guarded and therefore finite.  The
derived density and speed of sound use real-valued exp and sqrt. -/

structure Atmosphere where
  pressure_pa : ℚ
  temperature_c : ℚ
  humidity : ℚ
  altitude_m : ℚ
  air_density : ℝ
  speed_of_sound : ℝ
  baro_offset_pa : ℚ
  has_baro_pressure : Bool
  has_baro_temperature : Bool
  has_baro_humidity : Bool
  has_override_altitude : Bool
  has_override_pressure : Bool
  has_override_temp : Bool
  has_override_humidity : Bool
  had_invalid_input : Bool
  zero_recompute_hint : Bool
  last_bc_factor : ℚ
  diag_flags : ℕ

namespace Atmosphere

/-- Atmosphere::correctBC (atmosphere.cpp lines 219-256): 4-factor Litz / Army
Metro correction, all rational arithmetic.  The imperial conversion factors
M_TO_FT = 3.28084, PA_TO_INHG = 0.00029530 are the source literals. -/
def correctBC (st : Atmosphere) (bc_standard : ℚ) : ℚ :=
  let alt_ft := st.altitude_m * (328084/100000)
  let press_inhg := st.pressure_pa * (29530/100000000)
  let temp_f := st.temperature_c * (18/10) + 32
  let std_press_inhg : ℚ := 295300/10000
  let std_temp_f : ℚ := 59
  let FA := 1 - (3158/100000000) * alt_ft
  let FA := if FA < 1/2 then 1/2 else FA
  let FT := (temp_f - std_temp_f) / (std_temp_f + 460)
  let FP := (std_press_inhg - press_inhg) / std_press_inhg
  let humidity_pct := st.humidity * 100
  let FR := 1 + (2/100000) * (humidity_pct - 50)
  let bc_corrected := bc_standard * FA * (1 + FT - FP) * FR
  if bc_corrected < 1/100 then 1/100 else bc_corrected

/-- Atmosphere::recompute (atmosphere.cpp lines 147-217).  The local pressure,
humidity and virtual-temperature copies are sanitised exactly as in the
source; the isfinite guards on the rational state fields are vacuous in the
model (rationals are always finite) and the corresponding branches reduce to
the pure range checks.  The state pressure/temperature/humidity fields are
not written back (the source sanitises local copies only). -/
noncomputable def recompute (st : Atmosphere) : Atmosphere :=
  let prev_density := st.air_density
  let prev_sos := st.speed_of_sound
  let prev_bc_factor := st.last_bc_factor
  let d0 : ℕ := 0
  let d1 := if !st.has_baro_pressure && !st.has_override_pressure then
    d0 ||| BCE_Diag.DEFAULT_PRESSURE else d0
  let d2 := if !st.has_baro_temperature && !st.has_override_temp then
    d1 ||| BCE_Diag.DEFAULT_TEMP else d1
  let d3 := if !st.has_baro_humidity && !st.has_override_humidity then
    d2 ||| BCE_Diag.DEFAULT_HUMIDITY else d2
  let d4 := if !st.has_override_altitude then d3 ||| BCE_Diag.DEFAULT_ALTITUDE else d3
  let T_kelvin := st.temperature_c + BCE_KELVIN_OFFSET
  let T_kelvin := if T_kelvin < 1 then 1 else T_kelvin
  let inv0 := st.had_invalid_input
  let pi1 : ℚ × Bool :=
    if st.pressure_pa < 1000 then (1000, true) else (st.pressure_pa, inv0)
  let pressure := pi1.1
  let hi1 : ℚ × Bool := if st.humidity < 0 then (0, true) else (st.humidity, pi1.2)
  let hi2 : ℚ × Bool := if hi1.1 > 1 then (1, true) else (hi1.1, hi1.2)
  let humidity := hi2.1
  let t : ℝ := (st.temperature_c : ℝ)
  let e_sat : ℝ := 611.21 * Real.exp ((18.678 - t / 234.5) * (t / (257.14 + t)))
  let e_vapor : ℝ := (humidity : ℝ) * e_sat
  let Tv0 : ℝ := (T_kelvin : ℝ) * (1 + 0.378 * e_vapor / (pressure : ℝ))
  let ti1 : ℝ × Bool := if Tv0 < 1 then (1, true) else (Tv0, hi2.2)
  let T_virtual := ti1.1
  let air_density := (pressure : ℝ) / ((BCE_R_DRY_AIR : ℝ) * T_virtual)
  let speed_of_sound := 20.05 * Real.sqrt T_virtual
  let current_bc_factor := st.correctBC 1
  let hint :=
    if |current_bc_factor - prev_bc_factor| ≥ BCE_ZERO_RECOMPUTE_BC_FACTOR_DELTA
      ∨ |air_density - prev_density| ≥ ((BCE_ZERO_RECOMPUTE_DENSITY_DELTA : ℚ) : ℝ)
      ∨ |speed_of_sound - prev_sos| ≥ ((BCE_ZERO_RECOMPUTE_SOS_DELTA : ℚ) : ℝ)
    then true else st.zero_recompute_hint
  { st with
    air_density := air_density
    speed_of_sound := speed_of_sound
    had_invalid_input := ti1.2
    zero_recompute_hint := hint
    last_bc_factor := current_bc_factor
    diag_flags := d4 }

/-- Pressure sanitisation of Atmosphere::updateFromBaro (atmosphere.cpp lines
62-76): calibration offset, isfinite check (a non-finite raw pressure makes
the offset-corrected sum non-finite, so the check is modelled by the match
on the raw input), clamp to [1000, 120000] Pa, flag on any replacement. -/
noncomputable def baroPressureStage (st : Atmosphere) (pressure_pa : Fl) : Atmosphere :=
  let pr : ℚ × Bool :=
    match pressure_pa with
    | .fin x =>
      let c := x + st.baro_offset_pa
      if c < 1000 then (1000, true)
      else if c > 120000 then (120000, true)
      else (c, false)
    | _ => (BCE_DEFAULT_PRESSURE_PA, true)
  { st with pressure_pa := pr.1, had_invalid_input := st.had_invalid_input || pr.2 }

/-- Temperature sanitisation of Atmosphere::updateFromBaro (atmosphere.cpp
lines 78-91): isfinite check, clamp to [-80, 80] C, flag on any
replacement. -/
noncomputable def baroTemperatureStage (st : Atmosphere) (temperature_c : Fl) : Atmosphere :=
  let tp : ℚ × Bool :=
    match temperature_c with
    | .fin x =>
      if x < -80 then (-80, true)
      else if x > 80 then (80, true)
      else (x, false)
    | _ => (BCE_DEFAULT_TEMPERATURE_C, true)
  { st with temperature_c := tp.1, had_invalid_input := st.had_invalid_input || tp.2 }

/-- Humidity handling of Atmosphere::updateFromBaro (atmosphere.cpp lines
93-108): a value in [0, 1] is accepted silently; a value at least 0 but
outside [0, 1] (including positive infinity) is flagged, latched and
clamped or defaulted; anything else — NaN, negative values and negative
infinity — falls through both branches and leaves the humidity state
untouched with no flag. -/
noncomputable def baroHumidityStage (st : Atmosphere) (humidity : Fl) : Atmosphere :=
  if Fl.le (.fin 0) humidity && Fl.le humidity (.fin 1) then
    { st with has_baro_humidity := true, humidity := humidity.toQ }
  else if Fl.le (.fin 0) humidity then
    let st := { st with had_invalid_input := true, has_baro_humidity := true }
    if humidity.isFinite then
      if Fl.lt humidity (.fin 0) then { st with humidity := 0 }
      else if Fl.lt (.fin 1) humidity then { st with humidity := 1 }
      else st
    else { st with humidity := BCE_DEFAULT_HUMIDITY }
  else st

/-- Atmosphere::updateFromBaro (atmosphere.cpp lines 56-111): reset the
per-update invalid-input flag, mark pressure and temperature as sensed,
sanitise the three channels, recompute the derived quantities. -/
noncomputable def updateFromBaro (st : Atmosphere)
    (pressure_pa temperature_c humidity : Fl) : Atmosphere :=
  let st := { st with
    had_invalid_input := false
    has_baro_pressure := true
    has_baro_temperature := true }
  let st := st.baroPressureStage pressure_pa
  let st := st.baroTemperatureStage temperature_c
  let st := st.baroHumidityStage humidity
  st.recompute

/-- Atmosphere::consumeZeroRecomputeHint (atmosphere.cpp lines 50-54). -/
def consumeZeroRecomputeHint (st : Atmosphere) : Bool × Atmosphere :=
  (st.zero_recompute_hint, { st with zero_recompute_hint := false })

/-- Atmosphere::init (atmosphere.cpp lines 27-48), starting from the header
default member values for the derived fields. -/
noncomputable def init : Atmosphere :=
  let st : Atmosphere := {
    pressure_pa := BCE_DEFAULT_PRESSURE_PA
    temperature_c := BCE_DEFAULT_TEMPERATURE_C
    humidity := BCE_DEFAULT_HUMIDITY
    altitude_m := BCE_DEFAULT_ALTITUDE_M
    air_density := ((BCE_STD_AIR_DENSITY : ℚ) : ℝ)
    speed_of_sound := ((BCE_SPEED_OF_SOUND_15C : ℚ) : ℝ)
    baro_offset_pa := 0
    has_baro_pressure := false
    has_baro_temperature := false
    has_baro_humidity := false
    has_override_altitude := false
    has_override_pressure := false
    has_override_temp := false
    has_override_humidity := false
    had_invalid_input := false
    zero_recompute_hint := false
    last_bc_factor := 1
    diag_flags := 0 }
  let st := st.recompute
  let st := { st with last_bc_factor := st.correctBC 1 }
  { st with zero_recompute_hint := false }

end Atmosphere

/-! Magnetometer calibration (mag/mag_calibration.cpp). -/

structure MagCalibration where
  hard_iron : ℚ × ℚ × ℚ
  soft_iron_r0 : ℚ × ℚ × ℚ
  soft_iron_r1 : ℚ × ℚ × ℚ
  soft_iron_r2 : ℚ × ℚ × ℚ
  declination_deg : ℚ
  is_disturbed : Bool

namespace MagCalibration

/-- MagCalibration::init (mag_calibration.cpp lines 10-17). -/
def init : MagCalibration :=
  { hard_iron := (0, 0, 0), soft_iron_r0 := (1, 0, 0), soft_iron_r1 := (0, 1, 0),
    soft_iron_r2 := (0, 0, 1), declination_deg := 0, is_disturbed := false }

/-- MagCalibration::apply (mag_calibration.cpp lines 28-44): hard-iron
subtraction, soft-iron 3x3 multiply, field-magnitude disturbance check.
Returns the updated state (the disturbance latch), the corrected vector and
the mag-ok flag (the negated latch). -/
noncomputable def apply (st : MagCalibration) (mx my mz : ℚ) :
    MagCalibration × (ℚ × ℚ × ℚ) × Bool :=
  let cx := mx - st.hard_iron.1
  let cy := my - st.hard_iron.2.1
  let cz := mz - st.hard_iron.2.2
  let nx := st.soft_iron_r0.1 * cx + st.soft_iron_r0.2.1 * cy + st.soft_iron_r0.2.2 * cz
  let ny := st.soft_iron_r1.1 * cx + st.soft_iron_r1.2.1 * cy + st.soft_iron_r1.2.2 * cz
  let nz := st.soft_iron_r2.1 * cx + st.soft_iron_r2.2.1 * cy + st.soft_iron_r2.2.2 * cz
  let field_mag : ℝ := Real.sqrt (((nx * nx + ny * ny + nz * nz : ℚ)) : ℝ)
  let disturbed : Bool :=
    if field_mag < ((BCE_MAG_MIN_FIELD_UT : ℚ) : ℝ) ∨ ((BCE_MAG_MAX_FIELD_UT : ℚ) : ℝ) < field_mag
    then true else false
  ({ st with is_disturbed := disturbed }, (nx, ny, nz), !disturbed)

/-- MagCalibration::computeHeading (mag_calibration.cpp lines 46-55).  The two
wrapping while-loops place a finite heading in [0, 360); this is heading
minus 360 times its floored quotient. -/
noncomputable def computeHeading (st : MagCalibration) (yaw_rad : ℝ) : ℝ :=
  let heading := yaw_rad * BCE_RAD_TO_DEG + (st.declination_deg : ℝ)
  heading - 360 * (⌊heading / 360⌋ : ℝ)

end MagCalibration

/-! Quaternion and Euler conversions (ahrs/ahrs_interface.h).  The source
struct is named Quaternion; it is called Quat here because Mathlib already
defines a type of that name. -/

structure Quat where
  w : ℝ
  x : ℝ
  y : ℝ
  z : ℝ

/-- Quaternion::normalize (ahrs_interface.h lines 17-26). -/
noncomputable def Quat.normalize (q : Quat) : Quat :=
  let norm := Real.sqrt (q.w * q.w + q.x * q.x + q.y * q.y + q.z * q.z)
  if norm > 0 then
    let inv := 1 / norm
    ⟨q.w * inv, q.x * inv, q.y * inv, q.z * inv⟩
  else q

/-- std::atan2 on finite reals (piecewise arctangent). -/
noncomputable def atan2 (y x : ℝ) : ℝ :=
  if 0 < x then Real.arctan (y / x)
  else if x < 0 ∧ 0 ≤ y then Real.arctan (y / x) + Real.pi
  else if x < 0 ∧ y < 0 then Real.arctan (y / x) - Real.pi
  else if x = 0 ∧ 0 < y then Real.pi / 2
  else if x = 0 ∧ y < 0 then -(Real.pi / 2)
  else 0

/-- AHRS_Interface::getPitch (ahrs_interface.h lines 56-62). -/
noncomputable def Quat.getPitch (q : Quat) : ℝ :=
  let sinp := 2 * (q.w * q.y - q.z * q.x)
  let sinp := if sinp > 1 then 1 else sinp
  let sinp := if sinp < -1 then -1 else sinp
  Real.arcsin sinp

/-- AHRS_Interface::getRoll (ahrs_interface.h lines 65-70). -/
noncomputable def Quat.getRoll (q : Quat) : ℝ :=
  let sinr_cosp := 2 * (q.w * q.x + q.y * q.z)
  let cosr_cosp := 1 - 2 * (q.x * q.x + q.y * q.y)
  atan2 sinr_cosp cosr_cosp

/-- AHRS_Interface::getYaw (ahrs_interface.h lines 73-78). -/
noncomputable def Quat.getYaw (q : Quat) : ℝ :=
  let siny_cosp := 2 * (q.w * q.z + q.x * q.y)
  let cosy_cosp := 1 - 2 * (q.y * q.y + q.z * q.z)
  atan2 siny_cosp cosy_cosp

/-! Attitude filters (ahrs/madgwick.cpp, ahrs/mahony.cpp). -/

def BCE_MADGWICK_DEFAULT_BETA : ℚ := 1/10

def BCE_MAHONY_DEFAULT_KP : ℚ := 2

def BCE_MAHONY_DEFAULT_KI : ℚ := 5/1000

structure MadgwickFilter where
  q : Quat

structure MahonyFilter where
  q : Quat
  integral_fb_x : ℝ
  integral_fb_y : ℝ
  integral_fb_z : ℝ

namespace MadgwickFilter

/-- MadgwickFilter::update (madgwick.cpp lines 9-155): gyro-rate quaternion
derivative, gradient-descent correction (9-axis when the magnetometer is
used and non-degenerate, else 6-axis), Euler integration, normalisation. -/
noncomputable def update (st : MadgwickFilter) (ax ay az gx gy gz mx my mz : ℝ)
    (use_mag : Bool) (dt : ℝ) : MadgwickFilter :=
  let beta : ℝ := ((BCE_MADGWICK_DEFAULT_BETA : ℚ) : ℝ)
  let q0 := st.q.w
  let q1 := st.q.x
  let q2 := st.q.y
  let q3 := st.q.z
  let qDot0 := (1/2 : ℝ) * (-q1 * gx - q2 * gy - q3 * gz)
  let qDot1 := (1/2 : ℝ) * ( q0 * gx + q2 * gz - q3 * gy)
  let qDot2 := (1/2 : ℝ) * ( q0 * gy - q1 * gz + q3 * gx)
  let qDot3 := (1/2 : ℝ) * ( q0 * gz + q1 * gy - q2 * gx)
  let a_norm := Real.sqrt (ax * ax + ay * ay + az * az)
  let qd : ℝ × ℝ × ℝ × ℝ :=
    if a_norm > 1/1000 then
      let a_inv := 1 / a_norm
      let ax := ax * a_inv
      let ay := ay * a_inv
      let az := az * a_inv
      if use_mag then
        let m_norm := Real.sqrt (mx * mx + my * my + mz * mz)
        if m_norm > 1/1000 then
          let m_inv := 1 / m_norm
          let mx := mx * m_inv
          let my := my * m_inv
          let mz := mz * m_inv
          let t2q0 := 2 * q0
          let t2q1 := 2 * q1
          let t2q2 := 2 * q2
          let t2q3 := 2 * q3
          let q0q0 := q0 * q0
          let q0q1 := q0 * q1
          let q0q2 := q0 * q2
          let q0q3 := q0 * q3
          let q1q1 := q1 * q1
          let q1q2 := q1 * q2
          let q1q3 := q1 * q3
          let q2q2 := q2 * q2
          let q2q3 := q2 * q3
          let q3q3 := q3 * q3
          let hx := mx * (q0q0 + q1q1 - q2q2 - q3q3) +
                    2 * my * (q1q2 - q0q3) + 2 * mz * (q1q3 + q0q2)
          let hy := 2 * mx * (q1q2 + q0q3) + my * (q0q0 - q1q1 + q2q2 - q3q3) +
                    2 * mz * (q2q3 - q0q1)
          let t2bx := Real.sqrt (hx * hx + hy * hy)
          let t2bz := 2 * mx * (q1q3 - q0q2) + 2 * my * (q2q3 + q0q1) +
                      mz * (q0q0 - q1q1 - q2q2 + q3q3)
          let s0 := -t2q2 * (2 * q1q3 - t2q0 * q2 - ax) +
                    t2q1 * (2 * q0q1 + t2q2 * q3 - ay) -
                    t2bz * q2 * (t2bx * (1/2 - q2q2 - q3q3) + t2bz * (q1q3 - q0q2) - mx) +
                    (-t2bx * q3 + t2bz * q1) * (t2bx * (q1q2 - q0q3) + t2bz * (q0q1 + q2q3) - my) +
                    t2bx * q2 * (t2bx * (q0q2 + q1q3) + t2bz * (1/2 - q1q1 - q2q2) - mz)
          let s1 := t2q3 * (2 * q1q3 - t2q0 * q2 - ax) +
                    t2q0 * (2 * q0q1 + t2q2 * q3 - ay) -
                    4 * q1 * (1 - 2 * q1q1 - 2 * q2q2 - az) +
                    t2bz * q3 * (t2bx * (1/2 - q2q2 - q3q3) + t2bz * (q1q3 - q0q2) - mx) +
                    (t2bx * q2 + t2bz * q0) * (t2bx * (q1q2 - q0q3) + t2bz * (q0q1 + q2q3) - my) +
                    (t2bx * q3 - 4 * t2bz * q1) * (t2bx * (q0q2 + q1q3) + t2bz * (1/2 - q1q1 - q2q2) - mz)
          let s2 := -t2q0 * (2 * q1q3 - t2q0 * q2 - ax) +
                    t2q3 * (2 * q0q1 + t2q2 * q3 - ay) -
                    4 * q2 * (1 - 2 * q1q1 - 2 * q2q2 - az) +
                    (-4 * t2bx * q2 - t2bz * q0) * (t2bx * (1/2 - q2q2 - q3q3) + t2bz * (q1q3 - q0q2) - mx) +
                    (t2bx * q1 + t2bz * q3) * (t2bx * (q1q2 - q0q3) + t2bz * (q0q1 + q2q3) - my) +
                    (t2bx * q0 - 4 * t2bz * q2) * (t2bx * (q0q2 + q1q3) + t2bz * (1/2 - q1q1 - q2q2) - mz)
          let s3 := t2q1 * (2 * q1q3 - t2q0 * q2 - ax) +
                    t2q2 * (2 * q0q1 + t2q2 * q3 - ay) +
                    (-4 * t2bx * q3 + t2bz * q1) * (t2bx * (1/2 - q2q2 - q3q3) + t2bz * (q1q3 - q0q2) - mx) +
                    (-t2bx * q0 + t2bz * q2) * (t2bx * (q1q2 - q0q3) + t2bz * (q0q1 + q2q3) - my) +
                    t2bx * q1 * (t2bx * (q0q2 + q1q3) + t2bz * (1/2 - q1q1 - q2q2) - mz)
          let s_norm := Real.sqrt (s0 * s0 + s1 * s1 + s2 * s2 + s3 * s3)
          let sv : ℝ × ℝ × ℝ × ℝ :=
            if s_norm > 1/1000 then
              let s_inv := 1 / s_norm
              (s0 * s_inv, s1 * s_inv, s2 * s_inv, s3 * s_inv)
            else (s0, s1, s2, s3)
          (qDot0 - beta * sv.1, qDot1 - beta * sv.2.1,
           qDot2 - beta * sv.2.2.1, qDot3 - beta * sv.2.2.2)
        else (qDot0, qDot1, qDot2, qDot3)
      else
        let t2q0 := 2 * q0
        let t2q1 := 2 * q1
        let t2q2 := 2 * q2
        let t2q3 := 2 * q3
        let t4q0 := 4 * q0
        let t4q1 := 4 * q1
        let t4q2 := 4 * q2
        let t8q1 := 8 * q1
        let t8q2 := 8 * q2
        let q0q0 := q0 * q0
        let q1q1 := q1 * q1
        let q2q2 := q2 * q2
        let q3q3 := q3 * q3
        let s0 := t4q0 * q2q2 + t2q2 * ax + t4q0 * q1q1 - t2q1 * ay
        let s1 := t4q1 * q3q3 - t2q3 * ax + 4 * q0q0 * q1 - t2q0 * ay - t4q1 +
                  t8q1 * q1q1 + t8q1 * q2q2 + t4q1 * az
        let s2 := 4 * q0q0 * q2 + t2q0 * ax + t4q2 * q3q3 - t2q3 * ay - t4q2 +
                  t8q2 * q1q1 + t8q2 * q2q2 + t4q2 * az
        let s3 := 4 * q1q1 * q3 - t2q1 * ax + 4 * q2q2 * q3 - t2q2 * ay
        let s_norm := Real.sqrt (s0 * s0 + s1 * s1 + s2 * s2 + s3 * s3)
        let sv : ℝ × ℝ × ℝ × ℝ :=
          if s_norm > 1/1000 then
            let s_inv := 1 / s_norm
            (s0 * s_inv, s1 * s_inv, s2 * s_inv, s3 * s_inv)
          else (s0, s1, s2, s3)
        (qDot0 - beta * sv.1, qDot1 - beta * sv.2.1,
         qDot2 - beta * sv.2.2.1, qDot3 - beta * sv.2.2.2)
    else (qDot0, qDot1, qDot2, qDot3)
  let q0 := q0 + qd.1 * dt
  let q1 := q1 + qd.2.1 * dt
  let q2 := q2 + qd.2.2.1 * dt
  let q3 := q3 + qd.2.2.2 * dt
  { q := Quat.normalize ⟨q0, q1, q2, q3⟩ }

/-- MadgwickFilter::reset: identity quaternion. -/
def reset : MadgwickFilter := { q := ⟨1, 0, 0, 0⟩ }

end MadgwickFilter

namespace MahonyFilter

/-- MahonyFilter::update (mahony.cpp lines 9-94): cross-product error between
measured and estimated gravity (and reference field when the magnetometer is
used), integral and proportional feedback on the gyro, Euler integration,
normalisation. -/
noncomputable def update (st : MahonyFilter) (ax ay az gx gy gz mx my mz : ℝ)
    (use_mag : Bool) (dt : ℝ) : MahonyFilter :=
  let kp : ℝ := ((BCE_MAHONY_DEFAULT_KP : ℚ) : ℝ)
  let ki : ℝ := ((BCE_MAHONY_DEFAULT_KI : ℚ) : ℝ)
  let q0 := st.q.w
  let q1 := st.q.x
  let q2 := st.q.y
  let q3 := st.q.z
  let e0 : ℝ × ℝ × ℝ := (0, 0, 0)
  let a_norm := Real.sqrt (ax * ax + ay * ay + az * az)
  let e1 : ℝ × ℝ × ℝ :=
    if a_norm > 1/1000 then
      let a_inv := 1 / a_norm
      let ax := ax * a_inv
      let ay := ay * a_inv
      let az := az * a_inv
      let vx := 2 * (q1 * q3 - q0 * q2)
      let vy := 2 * (q0 * q1 + q2 * q3)
      let vz := q0 * q0 - q1 * q1 - q2 * q2 + q3 * q3
      (e0.1 + (ay * vz - az * vy), e0.2.1 + (az * vx - ax * vz),
       e0.2.2 + (ax * vy - ay * vx))
    else e0
  let e2 : ℝ × ℝ × ℝ :=
    if use_mag then
      let m_norm := Real.sqrt (mx * mx + my * my + mz * mz)
      if m_norm > 1/1000 then
        let m_inv := 1 / m_norm
        let mx := mx * m_inv
        let my := my * m_inv
        let mz := mz * m_inv
        let hx := 2 * (mx * (1/2 - q2 * q2 - q3 * q3) + my * (q1 * q2 - q0 * q3) +
                       mz * (q1 * q3 + q0 * q2))
        let hy := 2 * (mx * (q1 * q2 + q0 * q3) + my * (1/2 - q1 * q1 - q3 * q3) +
                       mz * (q2 * q3 - q0 * q1))
        let bx := Real.sqrt (hx * hx + hy * hy)
        let bz := 2 * (mx * (q1 * q3 - q0 * q2) + my * (q2 * q3 + q0 * q1) +
                       mz * (1/2 - q1 * q1 - q2 * q2))
        let wx := bx * (1/2 - q2 * q2 - q3 * q3) + bz * (q1 * q3 - q0 * q2)
        let wy := bx * (q1 * q2 - q0 * q3) + bz * (q0 * q1 + q2 * q3)
        let wz := bx * (q0 * q2 + q1 * q3) + bz * (1/2 - q1 * q1 - q2 * q2)
        (e1.1 + (my * wz - mz * wy), e1.2.1 + (mz * wx - mx * wz),
         e1.2.2 + (mx * wy - my * wx))
      else e1
    else e1
  let fb : (ℝ × ℝ × ℝ) × (ℝ × ℝ × ℝ) :=
    if ki > 0 then
      let ix := st.integral_fb_x + ki * e2.1 * dt
      let iy := st.integral_fb_y + ki * e2.2.1 * dt
      let iz := st.integral_fb_z + ki * e2.2.2 * dt
      ((ix, iy, iz), (gx + ix, gy + iy, gz + iz))
    else ((st.integral_fb_x, st.integral_fb_y, st.integral_fb_z), (gx, gy, gz))
  let gx := fb.2.1 + kp * e2.1
  let gy := fb.2.2.1 + kp * e2.2.1
  let gz := fb.2.2.2 + kp * e2.2.2
  let qDot0 := (1/2 : ℝ) * (-q1 * gx - q2 * gy - q3 * gz)
  let qDot1 := (1/2 : ℝ) * ( q0 * gx + q2 * gz - q3 * gy)
  let qDot2 := (1/2 : ℝ) * ( q0 * gy - q1 * gz + q3 * gx)
  let qDot3 := (1/2 : ℝ) * ( q0 * gz + q1 * gy - q2 * gx)
  let q0 := q0 + qDot0 * dt
  let q1 := q1 + qDot1 * dt
  let q2 := q2 + qDot2 * dt
  let q3 := q3 + qDot3 * dt
  { q := Quat.normalize ⟨q0, q1, q2, q3⟩
    integral_fb_x := fb.1.1
    integral_fb_y := fb.1.2.1
    integral_fb_z := fb.1.2.2 }

/-- MahonyFilter::reset: identity quaternion, cleared integrator. -/
def reset : MahonyFilter :=
  { q := ⟨1, 0, 0, 0⟩, integral_fb_x := 0, integral_fb_y := 0, integral_fb_z := 0 }

end MahonyFilter

/-! AHRS manager (ahrs/ahrs_manager.h, ahrs/ahrs_manager.cpp). -/

structure AHRSManager where
  algorithm : AHRS_Algorithm
  madgwick : MadgwickFilter
  mahony : MahonyFilter
  accel_bias : ℝ × ℝ × ℝ
  gyro_bias : ℝ × ℝ × ℝ
  accel_mag_buf : Fin 64 → ℝ
  buf_index : Fin 64
  sample_count : ℕ
  is_static : Bool

namespace AHRSManager

/-- AHRSManager::init (ahrs_manager.cpp lines 10-19); the algorithm selector
keeps its header default MADGWICK. -/
def init : AHRSManager :=
  { algorithm := .MADGWICK
    madgwick := MadgwickFilter.reset
    mahony := MahonyFilter.reset
    accel_bias := (0, 0, 0)
    gyro_bias := (0, 0, 0)
    accel_mag_buf := fun _ => 0
    buf_index := 0
    sample_count := 0
    is_static := false }

/-- AHRSManager::updateStaticDetection (ahrs_manager.cpp lines 90-117):
ring-buffer push of the accel magnitude; below the window size only count
and force is_static false, otherwise two-pass mean/variance and threshold. -/
noncomputable def updateStaticDetection (st : AHRSManager) (ax ay az : ℝ) :
    AHRSManager :=
  let mag := Real.sqrt (ax * ax + ay * ay + az * az)
  let buf := Function.update st.accel_mag_buf st.buf_index mag
  let idx := st.buf_index + 1
  if st.sample_count < BCE_AHRS_STATIC_WINDOW then
    { st with
      accel_mag_buf := buf
      buf_index := idx
      sample_count := st.sample_count + 1
      is_static := false }
  else
    let mean := (∑ i : Fin 64, buf i) / 64
    let var := (∑ i : Fin 64, (buf i - mean) * (buf i - mean)) / 64
    { st with
      accel_mag_buf := buf
      buf_index := idx
      is_static := if var < ((BCE_AHRS_STATIC_THRESHOLD : ℚ) : ℝ) then true else false }

/-- AHRSManager::update (ahrs_manager.cpp lines 37-54): bias correction,
active-filter dispatch, static detection on the corrected accel. -/
noncomputable def update (st : AHRSManager) (ax ay az gx gy gz mx my mz : ℝ)
    (use_mag : Bool) (dt : ℝ) : AHRSManager :=
  let ax := ax - st.accel_bias.1
  let ay := ay - st.accel_bias.2.1
  let az := az - st.accel_bias.2.2
  let gx := gx - st.gyro_bias.1
  let gy := gy - st.gyro_bias.2.1
  let gz := gz - st.gyro_bias.2.2
  let st :=
    match st.algorithm with
    | .MAHONY => { st with mahony := st.mahony.update ax ay az gx gy gz mx my mz use_mag dt }
    | .MADGWICK => { st with madgwick := st.madgwick.update ax ay az gx gy gz mx my mz use_mag dt }
  st.updateStaticDetection ax ay az

/-- AHRSManager::getQuaternion: active-filter dispatch. -/
def getQuaternion (st : AHRSManager) : Quat :=
  match st.algorithm with
  | .MAHONY => st.mahony.q
  | .MADGWICK => st.madgwick.q

/-- AHRSManager::isStable (ahrs_manager.h lines 46-48). -/
def isStable (st : AHRSManager) : Bool :=
  decide (st.sample_count ≥ BCE_AHRS_STATIC_WINDOW) && st.is_static

/-- AHRSManager::captureGyroBias (ahrs_manager.cpp lines 68-72). -/
def captureGyroBias (st : AHRSManager) (gx gy gz : ℝ) : AHRSManager :=
  { st with gyro_bias := (gx, gy, gz) }

/-- AHRSManager::getPitch via the active filter quaternion. -/
noncomputable def getPitch (st : AHRSManager) : ℝ := st.getQuaternion.getPitch

/-- AHRSManager::getRoll via the active filter quaternion. -/
noncomputable def getRoll (st : AHRSManager) : ℝ := st.getQuaternion.getRoll

/-- AHRSManager::getYaw via the active filter quaternion. -/
noncomputable def getYaw (st : AHRSManager) : ℝ := st.getQuaternion.getYaw

end AHRSManager

/-! Wind decomposition (corrections/wind.h, corrections/wind.cpp). -/

structure WindCorrection where
  speed_ms : ℚ
  heading_deg : ℚ
  is_set : Bool

namespace WindCorrection

/-- Header default member values (wind.h lines 35-37). -/
def initState : WindCorrection := { speed_ms := 0, heading_deg := 0, is_set := false }

/-- WindCorrection::setWind (wind.cpp lines 9-13). -/
def setWind (_st : WindCorrection) (speed_ms heading_deg : ℚ) : WindCorrection :=
  { speed_ms := speed_ms, heading_deg := heading_deg, is_set := true }

/-- WindCorrection::decompose (wind.cpp lines 15-33): relative angle between
the heading the wind comes from and the firing azimuth, headwind along
cosine, crosswind along sine; unset or tiny speed yields (0, 0). -/
noncomputable def decompose (st : WindCorrection) (azimuth_deg : ℝ) : ℝ × ℝ :=
  if !st.is_set || decide ((st.speed_ms : ℝ) < 1/1000) then (0, 0)
  else
    let angle_rad := ((st.heading_deg : ℝ) - azimuth_deg) * BCE_DEG_TO_RAD
    ((st.speed_ms : ℝ) * Real.cos angle_rad, (st.speed_ms : ℝ) * Real.sin angle_rad)

end WindCorrection

/-! Cant correction (corrections/cant.cpp). -/

namespace CantCorrection

/-- CantCorrection::apply (cant.cpp lines 9-16): returns the corrected
elevation and the induced windage. -/
noncomputable def apply (cant_angle_rad elevation_moa : ℝ) : ℝ × ℝ :=
  (elevation_moa * Real.cos cant_angle_rad, elevation_moa * Real.sin cant_angle_rad)

end CantCorrection

/-! Point-mass trajectory solver (solver/solver.h, solver/solver.cpp). -/

structure TrajectoryPoint where
  drop_m : ℝ
  windage_m : ℝ
  velocity_ms : ℝ
  tof_s : ℝ
  energy_j : ℝ

/-- The all-zero trajectory record (memset in BallisticSolver::init). -/
def TrajectoryPoint.zero : TrajectoryPoint := ⟨0, 0, 0, 0, 0⟩

structure SolverParams where
  bc : ℝ
  drag_model : DragModel
  muzzle_velocity_ms : ℝ
  bullet_mass_kg : ℝ
  sight_height_m : ℝ
  air_density : ℝ
  speed_of_sound : ℝ
  drag_reference_scale : ℝ
  launch_angle_rad : ℝ
  target_range_m : ℝ
  headwind_ms : ℝ
  crosswind_ms : ℝ
  coriolis_lat_rad : ℝ
  azimuth_rad : ℝ
  coriolis_enabled : Bool
  twist_rate_inches : ℝ
  caliber_m : ℝ
  spin_drift_enabled : Bool

structure SolverResult where
  valid : Bool
  drop_at_target_m : ℝ
  windage_at_target_m : ℝ
  tof_s : ℝ
  velocity_at_target_ms : ℝ
  energy_at_target_j : ℝ
  horizontal_range_m : ℝ
  coriolis_elev_moa : ℝ
  coriolis_wind_moa : ℝ
  spin_drift_moa : ℝ

/-- The memset-zero SolverResult with valid = false. -/
def SolverResult.invalid : SolverResult := ⟨false, 0, 0, 0, 0, 0, 0, 0, 0, 0⟩

/-- Persistent solver state: the static per-meter trajectory table (indexed by
whole meters; writes never exceed index BCE_MAX_RANGE_M) and the valid
prefix length. -/
structure BallisticSolver where
  table : ℕ → TrajectoryPoint
  max_valid_range : ℕ

namespace BallisticSolver

/-- BallisticSolver::init (solver.cpp lines 19-22). -/
def init : BallisticSolver := { table := fun _ => TrajectoryPoint.zero, max_valid_range := 0 }

/-- C-style float-to-int cast (truncation toward zero). -/
noncomputable def truncInt (x : ℝ) : ℤ := if 0 ≤ x then ⌊x⌋ else ⌈x⌉

/-- The computeAcceleration lambda of BallisticSolver::integrateToRange
(solver.cpp lines 215-239): relative wind, drag retardation along the
negative relative-wind direction scaled by the clamped drag reference
scale, gravity on y.  The isfinite guard on the scale is vacuous for real
scalars and reduces to the sign check. -/
noncomputable def computeAcceleration (P : SolverParams) (vxn vyn vzn : ℝ) :
    ℝ × ℝ × ℝ :=
  let vx_rel := vxn + P.headwind_ms
  let vz_rel := vzn - P.crosswind_ms
  let v_rel := Real.sqrt (vx_rel * vx_rel + vyn * vyn + vz_rel * vz_rel)
  if v_rel < 1 then (0, -((BCE_GRAVITY : ℚ) : ℝ), 0)
  else
    let decel := DragModelLookup.getDeceleration v_rel P.speed_of_sound P.bc
      P.drag_model P.air_density
    let drag_scale := if P.drag_reference_scale ≤ 0 then 1 else P.drag_reference_scale
    let drag_scale := if drag_scale < 1/5 then 1/5 else drag_scale
    let drag_scale := if drag_scale > 2 then 2 else drag_scale
    let decel := decel * drag_scale
    (-decel * (vx_rel / v_rel), -decel * (vyn / v_rel) - ((BCE_GRAVITY : ℚ) : ℝ),
     -decel * (vz_rel / v_rel))

/-- Working state of one integrateToRange call. -/
structure IntegState where
  x : ℝ
  y : ℝ
  z : ℝ
  vx : ℝ
  vy : ℝ
  vz : ℝ
  t : ℝ
  last_range_index : ℕ
  table : ℕ → TrajectoryPoint
  max_valid_range : ℕ

/-- The per-meter table-fill inner while loop of integrateToRange (solver.cpp
lines 330-340): advance last_range_index toward the current whole-meter mark
while it stays below BCE_TRAJ_TABLE_SIZE - 1, writing the current record
into each newly covered slot.  The index strictly increases and is bounded
by BCE_TRAJ_TABLE_SIZE - 1, so fuel BCE_TRAJ_TABLE_SIZE reproduces the
loop's fixpoint. -/
def fillLoop (cur : ℤ) (tp : TrajectoryPoint) :
    ℕ → ℕ → (ℕ → TrajectoryPoint) → ℕ × (ℕ → TrajectoryPoint)
  | 0, idx, tbl => (idx, tbl)
  | fuel + 1, idx, tbl =>
    if (idx : ℤ) < cur ∧ idx < BCE_TRAJ_TABLE_SIZE - 1 then
      fillLoop cur tp fuel (idx + 1) (Function.update tbl (idx + 1) tp)
    else (idx, tbl)

/-- One RK4 step of integrateToRange (solver.cpp lines 266-325): position and
velocity updated with the acceleration evaluated at the four sub-steps; the
table, valid prefix and fill index are untouched. -/
noncomputable def rk4Step (P : SolverParams) (st : IntegState) (dt : ℝ) : IntegState :=
  let a1 := computeAcceleration P st.vx st.vy st.vz
  let vx_k2 := st.vx + (1/2) * dt * a1.1
  let vy_k2 := st.vy + (1/2) * dt * a1.2.1
  let vz_k2 := st.vz + (1/2) * dt * a1.2.2
  let a2 := computeAcceleration P vx_k2 vy_k2 vz_k2
  let vx_k3 := st.vx + (1/2) * dt * a2.1
  let vy_k3 := st.vy + (1/2) * dt * a2.2.1
  let vz_k3 := st.vz + (1/2) * dt * a2.2.2
  let a3 := computeAcceleration P vx_k3 vy_k3 vz_k3
  let vx_k4 := st.vx + dt * a3.1
  let vy_k4 := st.vy + dt * a3.2.1
  let vz_k4 := st.vz + dt * a3.2.2
  let a4 := computeAcceleration P vx_k4 vy_k4 vz_k4
  let x2 := st.x + (dt / 6) * (st.vx + 2 * vx_k2 + 2 * vx_k3 + vx_k4)
  let y2 := st.y + (dt / 6) * (st.vy + 2 * vy_k2 + 2 * vy_k3 + vy_k4)
  let z2 := st.z + (dt / 6) * (st.vz + 2 * vz_k2 + 2 * vz_k3 + vz_k4)
  let vx2 := st.vx + (dt / 6) * (a1.1 + 2 * a2.1 + 2 * a3.1 + a4.1)
  let vy2 := st.vy + (dt / 6) * (a1.2.1 + 2 * a2.2.1 + 2 * a3.2.1 + a4.2.1)
  let vz2 := st.vz + (dt / 6) * (a1.2.2 + 2 * a2.2.2 + 2 * a3.2.2 + a4.2.2)
  let t2 := st.t + dt
  { st with x := x2, y := y2, z := z2, vx := vx2, vy := vy2, vz := vz2, t := t2 }

/-- The table-fill section of one loop iteration (solver.cpp lines 327-342),
applied to the RK4-updated state: write the current record into every newly
covered whole-meter slot and refresh max_valid_range. -/
noncomputable def fillStep (P : SolverParams) (st : IntegState) : IntegState :=
  let cur := truncInt st.x
  let v_current := Real.sqrt (st.vx * st.vx + st.vy * st.vy + st.vz * st.vz)
  let tp : TrajectoryPoint :=
    ⟨st.y, st.z, v_current, st.t, (1/2) * P.bullet_mass_kg * v_current * v_current⟩
  let fl := fillLoop cur tp BCE_TRAJ_TABLE_SIZE st.last_range_index st.table
  { st with last_range_index := fl.1, table := fl.2, max_valid_range := fl.1 }

/-- The adaptive-timestep choice of one loop iteration (solver.cpp lines
247-264): DT_MIN in the transonic band, 0.5/v otherwise, then bounded by
MAX_STEP_DISTANCE/v and clamped to [DT_MIN, DT_MAX]. -/
noncomputable def dtChoice (P : SolverParams) (v : ℝ) : ℝ :=
  let mach := v / P.speed_of_sound
  let dt : ℝ :=
    if mach > 9/10 ∧ mach < 12/10 then ((BCE_DT_MIN : ℚ) : ℝ) else (1/2) / v
  let dt_from_step := ((BCE_MAX_STEP_DISTANCE_M : ℚ) : ℝ) / v
  let dt := if dt > dt_from_step then dt_from_step else dt
  let dt := if dt < ((BCE_DT_MIN : ℚ) : ℝ) then ((BCE_DT_MIN : ℚ) : ℝ) else dt
  if dt > ((BCE_DT_MAX : ℚ) : ℝ) then ((BCE_DT_MAX : ℚ) : ℝ) else dt

/-- The main integration while loop of integrateToRange (solver.cpp lines
241-343): velocity floor, adaptive timestep, one RK4 step, optional table
fill.  One unit of fuel is one loop iteration; the fuel is instantiated
with BCE_MAX_SOLVER_ITERATIONS, the source's own iteration bound. -/
noncomputable def integLoop (P : SolverParams) (range_m : ℝ) (fill_table : Bool) :
    ℕ → IntegState → IntegState
  | 0, st => st
  | fuel + 1, st =>
    if st.x < range_m then
      let v := Real.sqrt (st.vx * st.vx + st.vy * st.vy + st.vz * st.vz)
      if v < ((BCE_MIN_VELOCITY : ℚ) : ℝ) then st
      else
        let st2 := rk4Step P st (dtChoice P v)
        let st3 := if fill_table then fillStep P st2 else st2
        integLoop P range_m fill_table fuel st3
    else st

/-- BallisticSolver::integrateToRange (solver.cpp lines 191-350): initial
conditions from muzzle velocity and launch angle, optional slot-0 write,
main loop, and the reached check (None models the NAN return). -/
noncomputable def integrateToRange (sol : BallisticSolver) (P : SolverParams)
    (range_m : ℝ) (fill_table : Bool) : BallisticSolver × Option ℝ :=
  let vx := P.muzzle_velocity_ms * Real.cos P.launch_angle_rad
  let vy := P.muzzle_velocity_ms * Real.sin P.launch_angle_rad
  let table0 :=
    if fill_table then
      Function.update sol.table 0
        ⟨0, 0, P.muzzle_velocity_ms, 0,
         (1/2) * P.bullet_mass_kg * P.muzzle_velocity_ms * P.muzzle_velocity_ms⟩
    else sol.table
  let st0 : IntegState :=
    { x := 0, y := 0, z := 0, vx := vx, vy := vy, vz := 0, t := 0,
      last_range_index := 0, table := table0, max_valid_range := sol.max_valid_range }
  let fin := integLoop P range_m fill_table BCE_MAX_SOLVER_ITERATIONS st0
  (⟨fin.table, fin.max_valid_range⟩, if fin.x < range_m then none else some fin.y)

/-- The bisection loop of BallisticSolver::solveZeroAngle (solver.cpp lines
62-88).  State: bracket [lo, hi], best_angle, and the angle currently held
in params.launch_angle_rad (the last midpoint tried).  Returns (solved,
best_angle, last_mid).  integrateToRange with fill_table = false leaves the
solver state unchanged (integrateToRange_false_state below), so the state
argument is passed unchanged to every probe, as in the source. -/
noncomputable def solveLoop (sol : BallisticSolver) (P : SolverParams)
    (zero_range_m target_drop : ℝ) :
    ℕ → ℝ → ℝ → ℝ → ℝ → Bool × ℝ × ℝ
  | 0, _lo, _hi, best, lastMid => (false, best, lastMid)
  | fuel + 1, lo, hi, best, _lastMid =>
    let mid := (lo + hi) * (1/2)
    match (sol.integrateToRange { P with launch_angle_rad := mid } zero_range_m false).2 with
    | none => solveLoop sol P zero_range_m target_drop fuel mid hi best mid
    | some drop =>
      let lohi : ℝ × ℝ := if drop > target_drop then (lo, mid) else (mid, hi)
      if |drop - target_drop| < ((BCE_ZERO_TOLERANCE_M : ℚ) : ℝ) then (true, mid, mid)
      else solveLoop sol P zero_range_m target_drop fuel lohi.1 lohi.2 mid mid

/-- BallisticSolver::solveZeroAngle (solver.cpp lines 24-97): range gate,
50-iteration bisection on [-5 deg, +5 deg] toward drop = -sight_height,
final re-probe at the last midpoint when the loop exhausts.  None models
the NAN return. -/
noncomputable def solveZeroAngle (sol : BallisticSolver) (P : SolverParams)
    (zero_range_m : ℝ) : Option ℝ :=
  if zero_range_m < 1 ∨ zero_range_m > ((BCE_MAX_RANGE_M : ℕ) : ℝ) then none
  else
    let target_drop := -P.sight_height_m
    let r := solveLoop sol P zero_range_m target_drop BCE_ZERO_MAX_ITERATIONS
      (-5 * BCE_DEG_TO_RAD) (5 * BCE_DEG_TO_RAD) 0 P.launch_angle_rad
    if r.1 then some r.2.1
    else
      match (sol.integrateToRange { P with launch_angle_rad := r.2.2 } zero_range_m false).2 with
      | none => none
      | some drop =>
        if |drop - target_drop| < ((BCE_ZERO_TOLERANCE_M : ℚ) : ℝ) then some r.2.1
        else none

/-- BallisticSolver::integrate (solver.cpp lines 99-182): range gate, full
table-filling integration, result assembly from the table entry at the
truncated target range, spin drift (Litz TOF^1.83 approximation) and
Coriolis terms. -/
noncomputable def integrate (sol : BallisticSolver) (P : SolverParams) :
    BallisticSolver × SolverResult :=
  if P.target_range_m < 1 ∨ P.target_range_m > ((BCE_MAX_RANGE_M : ℕ) : ℝ) then
    (sol, SolverResult.invalid)
  else
    let r := sol.integrateToRange P P.target_range_m true
    match r.2 with
    | none => (r.1, SolverResult.invalid)
    | some _ =>
      let target_idx := truncInt P.target_range_m
      if target_idx < 0 ∨ target_idx ≥ ((BCE_TRAJ_TABLE_SIZE : ℕ) : ℤ) then
        (r.1, SolverResult.invalid)
      else
        let tp := r.1.table target_idx.toNat
        let spin : ℝ :=
          if P.spin_drift_enabled && decide (|P.twist_rate_inches| > 1/10) then
            let sg : ℝ := 3/2
            let drift_m : ℝ := (254/10000) * (5/4) * (sg + 12/10) * tp.tof_s ^ (183/100 : ℝ)
            let drift_m := if P.twist_rate_inches < 0 then -drift_m else drift_m
            if P.target_range_m > 0 then (drift_m / P.target_range_m) * BCE_RAD_TO_MOA
            else 0
          else 0
        let cor : ℝ × ℝ :=
          if P.coriolis_enabled then
            let tof := tp.tof_s
            let range := P.target_range_m
            let coriolis_hz := ((BCE_OMEGA_EARTH : ℚ) : ℝ) * range * tof *
              Real.sin P.coriolis_lat_rad
            let coriolis_vt := ((BCE_OMEGA_EARTH : ℚ) : ℝ) * range * tof *
              Real.cos P.coriolis_lat_rad * Real.sin P.azimuth_rad
            if range > 0 then
              ((coriolis_hz / range) * BCE_RAD_TO_MOA, (coriolis_vt / range) * BCE_RAD_TO_MOA)
            else (0, 0)
          else (0, 0)
        (r.1,
         { valid := true
           drop_at_target_m := tp.drop_m
           windage_at_target_m := tp.windage_m
           tof_s := tp.tof_s
           velocity_at_target_ms := tp.velocity_ms
           energy_at_target_j := tp.energy_j
           horizontal_range_m := P.target_range_m * Real.cos P.launch_angle_rad
           coriolis_elev_moa := cor.2
           coriolis_wind_moa := cor.1
           spin_drift_moa := spin })

/-- BallisticSolver::getPointAt (solver.cpp lines 184-189). -/
def getPointAt (sol : BallisticSolver) (range_m : ℤ) : Option TrajectoryPoint :=
  if range_m < 0 ∨ range_m > (sol.max_valid_range : ℤ) ∨
      range_m ≥ ((BCE_TRAJ_TABLE_SIZE : ℕ) : ℤ) then none
  else some (sol.table range_m.toNat)

end BallisticSolver

/-! Engine data types (bce_types.h) and orchestrator (engine/bce_engine.cpp). -/

structure SensorFrame where
  timestamp_us : ℕ
  accel_x : Fl
  accel_y : Fl
  accel_z : Fl
  gyro_x : Fl
  gyro_y : Fl
  gyro_z : Fl
  imu_valid : Bool
  mag_x : Fl
  mag_y : Fl
  mag_z : Fl
  mag_valid : Bool
  baro_pressure_pa : Fl
  baro_temperature_c : Fl
  baro_humidity : Fl
  baro_valid : Bool
  baro_humidity_valid : Bool
  lrf_range_m : Fl
  lrf_timestamp_us : ℕ
  lrf_confidence : Fl
  lrf_valid : Bool
  encoder_focal_length_mm : Fl
  encoder_valid : Bool

structure BCE_DefaultOverrides where
  use_altitude : Bool
  altitude_m : ℚ
  use_pressure : Bool
  pressure_pa : ℚ
  use_temperature : Bool
  temperature_c : ℚ
  use_humidity : Bool
  humidity_fraction : ℚ
  use_wind : Bool
  wind_speed_ms : ℚ
  wind_heading_deg : ℚ
  use_latitude : Bool
  latitude_deg : ℚ

/-- The all-clear overrides record (memset in BCE_Engine::init). -/
def BCE_DefaultOverrides.zero : BCE_DefaultOverrides :=
  ⟨false, 0, false, 0, false, 0, false, 0, false, 0, 0, false, 0⟩

structure BulletProfile where
  bc : ℚ
  drag_model : DragModel
  muzzle_velocity_ms : ℚ
  barrel_length_in : ℚ
  mv_adjustment_factor : ℚ
  mass_grains : ℚ
  length_mm : ℚ
  caliber_inches : ℚ
  twist_rate_inches : ℚ

structure ZeroConfig where
  zero_range_m : ℚ
  sight_height_mm : ℚ

/-- FiringSolution (bce_types.h with the four directional windage components
written by BCE_Engine::computeSolution). -/
structure FiringSolution where
  solution_mode : ℕ
  fault_flags : ℕ
  defaults_active : ℕ
  hold_elevation_moa : ℝ
  hold_windage_moa : ℝ
  range_m : ℝ
  horizontal_range_m : ℝ
  tof_ms : ℝ
  velocity_at_target_ms : ℝ
  energy_at_target_j : ℝ
  coriolis_windage_moa : ℝ
  coriolis_elevation_moa : ℝ
  spin_drift_moa : ℝ
  wind_only_windage_moa : ℝ
  earth_spin_windage_moa : ℝ
  offsets_windage_moa : ℝ
  cant_windage_moa : ℝ
  cant_angle_deg : ℝ
  heading_deg_true : ℝ
  air_density_kgm3 : ℝ

/-- The memset-zero FiringSolution. -/
def FiringSolution.zero : FiringSolution :=
  ⟨0, 0, 0, 0, 0, 0, 0, 0, 0, 0, 0, 0, 0, 0, 0, 0, 0, 0, 0, 0⟩

structure BoresightOffset where
  vertical_moa : ℚ
  horizontal_moa : ℚ

/-- Full engine state (bce_engine.h lines 54-110). -/
structure BCE_Engine where
  ahrs : AHRSManager
  mag : MagCalibration
  atmo : Atmosphere
  solver : BallisticSolver
  wind : WindCorrection
  mode : BCE_Mode
  fault_flags : ℕ
  diag_flags : ℕ
  solution : FiringSolution
  bullet : BulletProfile
  has_bullet : Bool
  zero : ZeroConfig
  has_zero : Bool
  zero_angle_rad : ℝ
  zero_dirty : Bool
  lrf_range_m : ℚ
  lrf_range_filtered_m : ℚ
  lrf_timestamp_us : ℕ
  has_range : Bool
  lrf_quaternion : Quat
  latitude_deg : ℚ
  has_latitude : Bool
  boresight : BoresightOffset
  reticle : BoresightOffset
  overrides : BCE_DefaultOverrides
  has_overrides : Bool
  last_gyro : ℚ × ℚ × ℚ
  last_imu_timestamp_us : ℕ
  first_update : Bool
  had_invalid_sensor_input : Bool
  external_reference_mode : Bool

namespace BCE_Engine

/-- BCE_Engine::init (bce_engine.cpp lines 21-60) on a freshly constructed
engine (the wind member keeps its header default, which init does not
touch).  The memset bullet profile has drag-model byte 0, which the lookup
dispatch treats as G1 (the switch default). -/
noncomputable def initEngine : BCE_Engine :=
  { ahrs := AHRSManager.init
    mag := MagCalibration.init
    atmo := Atmosphere.init
    solver := BallisticSolver.init
    wind := WindCorrection.initState
    mode := .IDLE
    fault_flags := 0
    diag_flags := 0
    solution := FiringSolution.zero
    bullet := ⟨0, .G1, 0, 0, 0, 0, 0, 0, 0⟩
    has_bullet := false
    zero := ⟨0, 0⟩
    has_zero := false
    zero_angle_rad := 0
    zero_dirty := true
    lrf_range_m := 0
    lrf_range_filtered_m := 0
    lrf_timestamp_us := 0
    has_range := false
    lrf_quaternion := ⟨1, 0, 0, 0⟩
    latitude_deg := 0
    has_latitude := false
    boresight := ⟨0, 0⟩
    reticle := ⟨0, 0⟩
    overrides := BCE_DefaultOverrides.zero
    has_overrides := false
    last_gyro := (0, 0, 0)
    last_imu_timestamp_us := 0
    first_update := true
    had_invalid_sensor_input := false
    external_reference_mode := false }

/-- Section 1 of BCE_Engine::update (bce_engine.cpp lines 69-111): IMU
finiteness latch, dt from the timestamp delta (default 10 ms, clamped to
[1e-4, 0.1] s), raw-gyro cache, magnetometer calibration and disturbance
suppression, AHRS update. -/
noncomputable def imuStep (f : SensorFrame) (s : BCE_Engine) : BCE_Engine :=
  if f.imu_valid then
    let imu_finite := f.accel_x.isFinite && f.accel_y.isFinite && f.accel_z.isFinite &&
      f.gyro_x.isFinite && f.gyro_y.isFinite && f.gyro_z.isFinite
    let s := if !imu_finite then { s with had_invalid_sensor_input := true } else s
    let now := f.timestamp_us
    let dt : ℚ :=
      if !s.first_update && decide (now > s.last_imu_timestamp_us) then
        let dtv : ℚ := ((now - s.last_imu_timestamp_us : ℕ) : ℚ) / 1000000
        let dtv := if dtv > 1/10 then 1/10 else dtv
        if dtv < 1/10000 then 1/10000 else dtv
      else 1/100
    let s := { s with first_update := false, last_imu_timestamp_us := now }
    let s := if imu_finite then
        { s with last_gyro := (f.gyro_x.toQ, f.gyro_y.toQ, f.gyro_z.toQ) }
      else s
    let magres : BCE_Engine × (ℚ × ℚ × ℚ) × Bool :=
      if f.mag_valid then
        let mag_finite := f.mag_x.isFinite && f.mag_y.isFinite && f.mag_z.isFinite
        if !mag_finite then
          ({ s with had_invalid_sensor_input := true },
           (f.mag_x.toQ, f.mag_y.toQ, f.mag_z.toQ), false)
        else
          let r := s.mag.apply f.mag_x.toQ f.mag_y.toQ f.mag_z.toQ
          ({ s with mag := r.1 }, r.2.1, r.2.2)
      else (s, (f.mag_x.toQ, f.mag_y.toQ, f.mag_z.toQ), false)
    let s := magres.1
    let m := magres.2.1
    let use_mag := magres.2.2
    if imu_finite then
      let newAhrs := s.ahrs.update (f.accel_x.toQ : ℝ) (f.accel_y.toQ : ℝ)
        (f.accel_z.toQ : ℝ) (f.gyro_x.toQ : ℝ) (f.gyro_y.toQ : ℝ) (f.gyro_z.toQ : ℝ)
        (m.1 : ℝ) (m.2.1 : ℝ) (m.2.2 : ℝ) use_mag (dt : ℝ)
      { s with ahrs := newAhrs }
    else s
  else s

/-- Section 2 of BCE_Engine::update (bce_engine.cpp lines 113-120): barometer
into the atmosphere, zero-dirty propagation from the consumed hint. -/
noncomputable def baroStep (f : SensorFrame) (s : BCE_Engine) : BCE_Engine :=
  if f.baro_valid then
    let humidity : Fl := if f.baro_humidity_valid then f.baro_humidity else .fin (-1)
    let atmo := s.atmo.updateFromBaro f.baro_pressure_pa f.baro_temperature_c humidity
    let hint := atmo.consumeZeroRecomputeHint
    { s with atmo := hint.2, zero_dirty := s.zero_dirty || hint.1 }
  else s

/-- Section 3 of BCE_Engine::update (bce_engine.cpp lines 122-156): LRF
acceptance gate (finite range in (0, MAX_RANGE], confidence unprovided or
in [MIN_CONFIDENCE, 1]), IIR filtering with alpha = 0.2, timestamp record
and quaternion snapshot; invalid-input latching. -/
def lrfStep (f : SensorFrame) (s : BCE_Engine) : BCE_Engine :=
  if f.lrf_valid then
    let s := if !f.lrf_range_m.isFinite then { s with had_invalid_sensor_input := true } else s
    let range_valid := f.lrf_range_m.isFinite && Fl.lt (.fin 0) f.lrf_range_m &&
      Fl.le f.lrf_range_m (.fin ((BCE_MAX_RANGE_M : ℕ) : ℚ))
    let confidence := f.lrf_confidence
    let confidence_provided := Fl.lt (.fin 0) confidence
    let confidence_in_range := confidence.isFinite && Fl.le (.fin 0) confidence &&
      Fl.le confidence (.fin 1)
    let confidence_valid := !confidence_provided ||
      (confidence_in_range && Fl.le (.fin BCE_LRF_MIN_CONFIDENCE) confidence)
    let s := if confidence_provided && !confidence_in_range then
        { s with had_invalid_sensor_input := true }
      else s
    if range_valid && confidence_valid then
      let filtered : ℚ :=
        if !s.has_range then f.lrf_range_m.toQ
        else BCE_LRF_FILTER_ALPHA * f.lrf_range_m.toQ +
          (1 - BCE_LRF_FILTER_ALPHA) * s.lrf_range_filtered_m
      { s with
        lrf_range_filtered_m := filtered
        lrf_range_m := f.lrf_range_m.toQ
        lrf_timestamp_us := f.lrf_timestamp_us
        lrf_quaternion := s.ahrs.getQuaternion
        has_range := true }
    else s
  else s

/-- BCE_Engine::buildSolverParams (bce_engine.cpp lines 489-538). -/
noncomputable def buildSolverParams (s : BCE_Engine) (range_m : ℝ) : SolverParams :=
  let bc := s.atmo.correctBC s.bullet.bc
  let base_mv_fps := s.bullet.muzzle_velocity_ms * (328084/100000)
  let barrel_length_delta_in := s.bullet.barrel_length_in - 24
  let mv_adjustment_fps_per_in := |s.bullet.mv_adjustment_factor|
  let adjusted_mv_fps := base_mv_fps + barrel_length_delta_in * mv_adjustment_fps_per_in
  let muzzle_velocity_ms := adjusted_mv_fps * (3048/10000)
  let heading := s.mag.computeHeading s.ahrs.getYaw
  let hw_cw := s.wind.decompose heading
  let spin_on := decide (|s.bullet.twist_rate_inches| > 1/10)
  { bc := (bc : ℝ)
    drag_model := s.bullet.drag_model
    muzzle_velocity_ms := (muzzle_velocity_ms : ℝ)
    bullet_mass_kg := ((s.bullet.mass_grains * BCE_GRAINS_TO_KG : ℚ) : ℝ)
    sight_height_m :=
      if s.has_zero then ((s.zero.sight_height_mm * BCE_MM_TO_M : ℚ) : ℝ) else 0
    air_density := s.atmo.air_density
    speed_of_sound := s.atmo.speed_of_sound
    drag_reference_scale :=
      if s.external_reference_mode then ((BCE_EXTERNAL_REFERENCE_DRAG_SCALE : ℚ) : ℝ)
      else ((BCE_DEFAULT_DRAG_REFERENCE_SCALE : ℚ) : ℝ)
    launch_angle_rad := 0
    target_range_m := range_m
    headwind_ms := hw_cw.1
    crosswind_ms := hw_cw.2
    coriolis_lat_rad :=
      if s.has_latitude then (s.latitude_deg : ℝ) * BCE_DEG_TO_RAD else 0
    azimuth_rad := if s.has_latitude then heading * BCE_DEG_TO_RAD else 0
    coriolis_enabled := s.has_latitude
    twist_rate_inches := if spin_on then (s.bullet.twist_rate_inches : ℝ) else 0
    caliber_m := if spin_on then ((s.bullet.caliber_inches * BCE_INCHES_TO_M : ℚ) : ℝ) else 0
    spin_drift_enabled := spin_on }

/-- BCE_Engine::recomputeZero (bce_engine.cpp lines 460-483). -/
noncomputable def recomputeZero (s : BCE_Engine) : BCE_Engine :=
  let s := { s with zero_dirty := false }
  if !s.has_bullet || !s.has_zero then { s with zero_angle_rad := 0 }
  else if s.zero.zero_range_m < 1 ∨ s.zero.zero_range_m > ((BCE_MAX_RANGE_M : ℕ) : ℚ) then
    { s with
      fault_flags := s.fault_flags ||| BCE_Fault.ZERO_UNSOLVABLE
      zero_angle_rad := 0 }
  else
    let params := s.buildSolverParams ((s.zero.zero_range_m : ℚ) : ℝ)
    match s.solver.solveZeroAngle params ((s.zero.zero_range_m : ℚ) : ℝ) with
    | none =>
      { s with
        fault_flags := s.fault_flags ||| BCE_Fault.ZERO_UNSOLVABLE
        zero_angle_rad := 0 }
    | some angle => { s with zero_angle_rad := angle }

/-- BCE_Engine::computeSolution (bce_engine.cpp lines 347-454): consume the
dirty zero, exit FAULT on ZERO_UNSOLVABLE, integrate, translate drop and
windage into sight-relative MOA holds, apply Coriolis, spin drift, offsets
and cant, publish the solution.  The success path does not assign mode_
(evaluateState assigns SOLUTION_READY afterwards, also after the FAULT
exits of this function). -/
noncomputable def computeSolution (s : BCE_Engine) : BCE_Engine :=
  let s := if s.zero_dirty then s.recomputeZero else s
  if s.fault_flags &&& BCE_Fault.ZERO_UNSOLVABLE ≠ 0 then
    { s with
      mode := .FAULT
      solution := { s.solution with
        solution_mode := BCE_Mode.FAULT.toU32
        fault_flags := s.fault_flags
        defaults_active := s.diag_flags } }
  else
    let pitch := s.ahrs.getPitch
    let roll := s.ahrs.getRoll
    let yaw := s.ahrs.getYaw
    let heading_true := s.mag.computeHeading yaw
    let params := s.buildSolverParams ((s.lrf_range_filtered_m : ℚ) : ℝ)
    let params := { params with launch_angle_rad := s.zero_angle_rad + pitch }
    let ri := s.solver.integrate params
    let s := { s with solver := ri.1 }
    let result := ri.2
    if !result.valid then
      let newFaults := s.fault_flags ||| BCE_Fault.ZERO_UNSOLVABLE
      { s with
        fault_flags := newFaults
        mode := .FAULT
        solution := { s.solution with
          solution_mode := BCE_Mode.FAULT.toU32
          fault_flags := newFaults
          defaults_active := s.diag_flags } }
    else
      let range := ((s.lrf_range_m : ℚ) : ℝ)
      let dw : ℝ × ℝ :=
        if range > 0 then
          let sight_h : ℝ :=
            if s.has_zero then ((s.zero.sight_height_mm * BCE_MM_TO_M : ℚ) : ℝ) else 0
          let zero_range_m : ℝ :=
            if s.has_zero && decide (s.zero.zero_range_m > 0) then
              ((s.zero.zero_range_m : ℚ) : ℝ)
            else range
          let sight_line_drop := sight_h - (sight_h / zero_range_m) * range
          let relative_drop := result.drop_at_target_m - sight_line_drop
          (-(relative_drop / range) * BCE_RAD_TO_MOA,
           -(result.windage_at_target_m / range) * BCE_RAD_TO_MOA)
        else (0, 0)
      let drop_moa := dw.1
      let wind_from_wind_moa := dw.2
      let windage_earth_spin_moa := result.coriolis_wind_moa + result.spin_drift_moa
      let windage_offsets_moa : ℝ :=
        ((s.boresight.horizontal_moa + s.reticle.horizontal_moa : ℚ) : ℝ)
      let drop_moa := drop_moa + result.coriolis_elev_moa
      let windage_moa := wind_from_wind_moa + windage_earth_spin_moa
      let drop_moa := drop_moa + ((s.boresight.vertical_moa + s.reticle.vertical_moa : ℚ) : ℝ)
      let windage_moa := windage_moa + windage_offsets_moa
      let windage_before_cant_moa := windage_moa
      let cant := CantCorrection.apply roll drop_moa
      let drop_moa := cant.1
      let windage_moa := windage_moa + cant.2
      let windage_cant_moa := windage_moa - windage_before_cant_moa
      { s with solution := {
          solution_mode := BCE_Mode.SOLUTION_READY.toU32
          fault_flags := s.fault_flags
          defaults_active := s.diag_flags
          hold_elevation_moa := drop_moa
          hold_windage_moa := windage_moa
          range_m := range
          horizontal_range_m := result.horizontal_range_m
          tof_ms := result.tof_s * 1000
          velocity_at_target_ms := result.velocity_at_target_ms
          energy_at_target_j := result.energy_at_target_j
          coriolis_windage_moa := result.coriolis_wind_moa
          coriolis_elevation_moa := result.coriolis_elev_moa
          spin_drift_moa := result.spin_drift_moa
          wind_only_windage_moa := wind_from_wind_moa
          earth_spin_windage_moa := windage_earth_spin_moa
          offsets_windage_moa := windage_offsets_moa
          cant_windage_moa := windage_cant_moa
          cant_angle_deg := roll * BCE_RAD_TO_DEG
          heading_deg_true := heading_true
          air_density_kgm3 := s.atmo.air_density } }

/-- Range presence / staleness check of BCE_Engine::evaluateState
(bce_engine.cpp lines 268-279). -/
noncomputable def rangeFaultStage (now_us : ℕ) (s : BCE_Engine) : BCE_Engine :=
  if !s.has_range then { s with fault_flags := s.fault_flags ||| BCE_Fault.NO_RANGE }
  else if now_us > s.lrf_timestamp_us + BCE_LRF_STALE_US then
    { s with
      has_range := false
      fault_flags := s.fault_flags ||| BCE_Fault.NO_RANGE
      diag_flags := s.diag_flags ||| BCE_Diag.LRF_STALE }
  else s

/-- Bullet profile checks of BCE_Engine::evaluateState (bce_engine.cpp lines
281-296). -/
noncomputable def bulletFaultStage (s : BCE_Engine) : BCE_Engine :=
  if !s.has_bullet then { s with fault_flags := s.fault_flags ||| BCE_Fault.NO_BULLET }
  else
    let s := if s.bullet.muzzle_velocity_ms < 1 then
        { s with fault_flags := s.fault_flags ||| BCE_Fault.NO_MV }
      else s
    let s := if s.bullet.bc < 1/1000 then
        { s with fault_flags := s.fault_flags ||| BCE_Fault.NO_BC }
      else s
    if s.has_zero && decide (s.zero.zero_range_m < 1 ∨
        s.zero.zero_range_m > ((BCE_MAX_RANGE_M : ℕ) : ℚ)) then
      { s with fault_flags := s.fault_flags ||| BCE_Fault.ZERO_UNSOLVABLE }
    else s

/-- AHRS stability check of BCE_Engine::evaluateState (bce_engine.cpp lines
298-300). -/
noncomputable def ahrsFaultStage (s : BCE_Engine) : BCE_Engine :=
  if !s.ahrs.isStable then
    { s with fault_flags := s.fault_flags ||| BCE_Fault.AHRS_UNSTABLE }
  else s

/-- Diagnostic-only checks of BCE_Engine::evaluateState (bce_engine.cpp lines
302-306). -/
noncomputable def diagStage (s : BCE_Engine) : BCE_Engine :=
  let s := if !s.has_latitude then
      { s with diag_flags := s.diag_flags ||| BCE_Diag.CORIOLIS_DISABLED }
    else s
  let s := if s.mag.is_disturbed then
      { s with diag_flags := s.diag_flags ||| BCE_Diag.MAG_SUPPRESSED }
    else s
  if !s.wind.is_set then
    { s with diag_flags := s.diag_flags ||| BCE_Diag.DEFAULT_WIND }
  else s

/-- SENSOR_INVALID latching of BCE_Engine::evaluateState (bce_engine.cpp
lines 308-310). -/
noncomputable def sensorInvalidStage (s : BCE_Engine) : BCE_Engine :=
  if s.atmo.had_invalid_input || s.had_invalid_sensor_input then
    { s with fault_flags := s.fault_flags ||| BCE_Fault.SENSOR_INVALID }
  else s

/-- Mode selection of BCE_Engine::evaluateState (bce_engine.cpp lines
312-341).  The SOLUTION_READY assignment after computeSolution is
unconditional in the source and overwrites the FAULT mode computeSolution
may have set. -/
noncomputable def modeStage (s : BCE_Engine) : BCE_Engine :=
  let hard_faults := s.fault_flags &&& (BCE_Fault.NO_RANGE ||| BCE_Fault.NO_BULLET |||
    BCE_Fault.NO_MV ||| BCE_Fault.NO_BC ||| BCE_Fault.AHRS_UNSTABLE |||
    BCE_Fault.ZERO_UNSOLVABLE)
  if s.fault_flags != 0 && hard_faults != 0 then
    { s with
      mode := .FAULT
      solution := { s.solution with
        solution_mode := BCE_Mode.FAULT.toU32
        fault_flags := s.fault_flags
        defaults_active := s.diag_flags } }
  else if s.has_range && s.has_bullet && decide (s.bullet.muzzle_velocity_ms > (1 : ℚ)) &&
      decide (s.bullet.bc > (1/1000 : ℚ)) then
    let s := s.computeSolution
    { s with mode := .SOLUTION_READY }
  else
    { s with
      mode := .IDLE
      solution := { s.solution with
        solution_mode := BCE_Mode.IDLE.toU32
        fault_flags := s.fault_flags
        defaults_active := s.diag_flags } }

/-- BCE_Engine::evaluateState (bce_engine.cpp lines 262-341): rebuild the
fault and diagnostic bitmaps from scratch, FAULT on any hard fault,
otherwise compute a solution when sufficient data is present (assigning
SOLUTION_READY unconditionally afterwards, which also overwrites any FAULT
set inside computeSolution), else IDLE. -/
noncomputable def evaluateState (now_us : ℕ) (s : BCE_Engine) : BCE_Engine :=
  let s := { s with fault_flags := 0, diag_flags := s.atmo.diag_flags }
  modeStage (sensorInvalidStage (diagStage (ahrsFaultStage (bulletFaultStage
    (rangeFaultStage now_us s)))))

/-- BCE_Engine::update (bce_engine.cpp lines 62-160): null-frame guard,
per-frame invalid-input latch reset, the three sensor sections, state
evaluation. -/
noncomputable def update (frame : Option SensorFrame) (s : BCE_Engine) : BCE_Engine :=
  match frame with
  | none => s
  | some f =>
    let s := { s with had_invalid_sensor_input := false }
    let s := imuStep f s
    let s := baroStep f s
    let s := lrfStep f s
    evaluateState f.timestamp_us s

/-- BCE_Engine::getSolution (bce_engine.cpp lines 252-256): copies the
published solution into caller storage. -/
def getSolution (s : BCE_Engine) : FiringSolution := s.solution

/-- BCE_Engine::getMode (bce_engine.h line 50). -/
def getMode (s : BCE_Engine) : BCE_Mode := s.mode

/-- BCE_Engine::getFaultFlags (bce_engine.h line 51). -/
def getFaultFlags (s : BCE_Engine) : ℕ := s.fault_flags

/-- BCE_Engine::getDiagFlags (bce_engine.h line 52). -/
def getDiagFlags (s : BCE_Engine) : ℕ := s.diag_flags

end BCE_Engine

/-! Theorems.  One theorem per claim (C1..C10), preceded by its helper
lemmas. -/

/-- C8: update with a null frame pointer returns before touching anything, so
every piece of engine state — mode, bitmaps, published solution, subsystem
caches and internal flags — is identical before and after the call. -/
theorem update_null_frame_is_noop (s : BCE_Engine) :
    BCE_Engine.update none s = s := rfl

/-- C7 counterexample: with wind set at speed 0.0005 m/s and heading equal to
the azimuth, decompose returns headwind 0 although the claimed formula
s * cos((h_from - az) * pi/180) gives 0.0005; speeds below 0.001 m/s are
zeroed even when the wind has been set. -/
theorem decompose_small_speed_counterexample :
    (WindCorrection.decompose
      (WindCorrection.setWind WindCorrection.initState (1/2000) 90) 90).1 = 0 ∧
    ((1/2000 : ℚ) : ℝ) * Real.cos ((((90 : ℚ) : ℝ) - 90) * BCE_DEG_TO_RAD) ≠ 0 := by
  constructor
  · have hlt : (((1:ℚ)/2000 : ℚ) : ℝ) < 1/1000 := by norm_num
    simp only [WindCorrection.decompose, WindCorrection.setWind, Bool.not_true,
      Bool.false_or, decide_eq_true hlt]
    rfl
  · have : (((90 : ℚ) : ℝ) - 90) * BCE_DEG_TO_RAD = 0 := by norm_num
    rw [this, Real.cos_zero]
    norm_num

/-- C7 (amended): for wind set through setWind with speed at least 0.001 m/s,
decompose yields headwind s * cos((h_from - az) * pi/180) and crosswind
s * sin of the same angle; with the wind unset (and likewise for any speed
below 0.001 m/s, per the counterexample) the outputs are (0, 0). -/
theorem decompose_spec (w : WindCorrection) (s h : ℚ) (az : ℝ)
    (hs : (1/1000 : ℝ) ≤ ((s : ℚ) : ℝ)) :
    (WindCorrection.setWind w s h).decompose az =
      (((s : ℚ) : ℝ) * Real.cos ((((h : ℚ) : ℝ) - az) * BCE_DEG_TO_RAD),
       ((s : ℚ) : ℝ) * Real.sin ((((h : ℚ) : ℝ) - az) * BCE_DEG_TO_RAD)) ∧
    (∀ w2 : WindCorrection, w2.is_set = false → w2.decompose az = (0, 0)) := by
  constructor
  · have hd : decide (((s : ℚ) : ℝ) < 1/1000) = false :=
      decide_eq_false (not_lt.mpr hs)
    simp only [WindCorrection.decompose, WindCorrection.setWind, Bool.not_true,
      Bool.false_or, hd]
    rfl
  · intro w2 h2
    simp only [WindCorrection.decompose, h2, Bool.not_false, Bool.true_or]
    rfl

/-- C7 witness: the amended statement applied at speed 5 m/s, heading 90 deg,
azimuth 30 deg. -/
theorem decompose_spec_witness :
    (WindCorrection.setWind WindCorrection.initState 5 90).decompose 30 =
      (((5 : ℚ) : ℝ) * Real.cos ((((90 : ℚ) : ℝ) - 30) * BCE_DEG_TO_RAD),
       ((5 : ℚ) : ℝ) * Real.sin ((((90 : ℚ) : ℝ) - 30) * BCE_DEG_TO_RAD)) :=
  (decompose_spec WindCorrection.initState 5 90 30 (by norm_num)).1

/-- Bracket invariant of the interpolation binary search: starting from a
bracket lo < hi with table(lo).mach ≤ m < table(hi).mach and fuel at least
hi - lo, the search returns adjacent indices (j, j+1) inside [lo, hi] that
still bracket m. -/
theorem binSearch_bracket {α : Type} [LinearOrderedField α]
    (tbl : List (α × α)) (m : α) :
    ∀ (fuel lo hi : ℕ), hi - lo ≤ fuel → lo < hi →
      (tbl.getD lo (0, 0)).1 ≤ m → m < (tbl.getD hi (0, 0)).1 →
      (DragModelLookup.binSearch tbl m fuel lo hi).2 =
          (DragModelLookup.binSearch tbl m fuel lo hi).1 + 1 ∧
        lo ≤ (DragModelLookup.binSearch tbl m fuel lo hi).1 ∧
        (DragModelLookup.binSearch tbl m fuel lo hi).2 ≤ hi ∧
        (tbl.getD (DragModelLookup.binSearch tbl m fuel lo hi).1 (0, 0)).1 ≤ m ∧
        m < (tbl.getD (DragModelLookup.binSearch tbl m fuel lo hi).2 (0, 0)).1 := by
  intro fuel
  induction fuel with
  | zero => intro lo hi hf hlh _ _; omega
  | succ fuel ih =>
    intro lo hi hf hlh hlo hhi
    simp only [DragModelLookup.binSearch]
    by_cases hgt : hi - lo > 1
    · rw [if_pos hgt]
      by_cases hmid : (tbl.getD ((lo + hi) / 2) (0, 0)).1 ≤ m
      · rw [if_pos hmid]
        have h1 := ih ((lo + hi) / 2) hi (by omega) (by omega) hmid hhi
        exact ⟨h1.1, by omega, h1.2.2.1, h1.2.2.2.1, h1.2.2.2.2⟩
      · rw [if_neg hmid]
        have h1 := ih lo ((lo + hi) / 2) (by omega) (by omega) hlo (not_le.mp hmid)
        exact ⟨h1.1, h1.2.1, by omega, h1.2.2.2.1, h1.2.2.2.2⟩
    · rw [if_neg hgt]
      have : hi = lo + 1 := by omega
      subst this
      exact ⟨rfl, le_refl _, le_refl _, hlo, hhi⟩

/-- Spec-side characterisation of the drag-coefficient lookup, following the
claim wording: Mach at or below the first table point returns the first Cd;
at or above the last point, the last Cd; otherwise the value is the linear
interpolation between a pair of adjacent table points bracketing the Mach
number. -/
def CdSpec {α : Type} [LinearOrderedField α] (tbl : List (α × α)) (m cd : α) : Prop :=
  (m ≤ (tbl.getD 0 (0, 0)).1 ∧ cd = (tbl.getD 0 (0, 0)).2) ∨
  ((tbl.getD (tbl.length - 1) (0, 0)).1 ≤ m ∧ cd = (tbl.getD (tbl.length - 1) (0, 0)).2) ∨
  (∃ j, j + 1 ≤ tbl.length - 1 ∧ (tbl.getD j (0, 0)).1 ≤ m ∧
    m < (tbl.getD (j + 1) (0, 0)).1 ∧
    cd = (tbl.getD j (0, 0)).2 +
      (m - (tbl.getD j (0, 0)).1) /
        ((tbl.getD (j + 1) (0, 0)).1 - (tbl.getD j (0, 0)).1) *
        ((tbl.getD (j + 1) (0, 0)).2 - (tbl.getD j (0, 0)).2)) 

/-- The source interpolate satisfies the spec-side characterisation on any
table with at least two points. -/
theorem interpolate_CdSpec {α : Type} [LinearOrderedField α]
    (tbl : List (α × α)) (m : α) (hlen : 2 ≤ tbl.length) :
    CdSpec tbl m (DragModelLookup.interpolate tbl m) := by
  unfold DragModelLookup.interpolate
  by_cases h1 : m ≤ (tbl.getD 0 (0, 0)).1
  · rw [if_pos h1]
    exact Or.inl ⟨h1, rfl⟩
  · rw [if_neg h1]
    by_cases h2 : (tbl.getD (tbl.length - 1) (0, 0)).1 ≤ m
    · rw [if_pos h2]
      exact Or.inr (Or.inl ⟨h2, rfl⟩)
    · rw [if_neg h2]
      have hb := binSearch_bracket tbl m tbl.length 0 (tbl.length - 1)
        (by omega) (by omega) (le_of_lt (not_le.mp h1)) (not_le.mp h2)
      refine Or.inr (Or.inr ⟨(DragModelLookup.binSearch tbl m tbl.length 0 (tbl.length - 1)).1,
        ?_, hb.2.2.2.1, ?_, ?_⟩)
      · omega
      · rw [← hb.1]
        exact hb.2.2.2.2
      · rw [← hb.1]
  
/-- Every modelled drag table has at least two points after casting. -/
theorem dragTable_length_ge (model : DragModel) :
    2 ≤ (castTable ℝ (dragTable model)).length := by
  cases model <;> simp [castTable, dragTable]

/-- C6: for every velocity, speed of sound (positive), corrected BC, drag
model and air density, getDeceleration is exactly 0 when v < 1 m/s or
BC < 1e-3, and otherwise equals Cd(v/c) * (rho/1.225) * v^2 / (BC * 900)
with Cd given by table interpolation with first/last-point edge clamping
(CdSpec). -/
theorem getDeceleration_spec (model : DragModel) (v c bc ρ : ℝ) (hc : 0 < c) :
    ((v < 1 ∨ bc < 1/1000) → DragModelLookup.getDeceleration v c bc model ρ = 0) ∧
    (1 ≤ v → 1/1000 ≤ bc →
      ∃ cd, CdSpec (castTable ℝ (dragTable model)) (v / c) cd ∧
        DragModelLookup.getDeceleration v c bc model ρ =
          cd * (ρ / (1225/1000)) * v ^ 2 / (bc * 900)) := by
  constructor
  · intro h
    unfold DragModelLookup.getDeceleration
    rcases h with h | h
    · rw [if_pos h]
    · by_cases hv : v < 1
      · rw [if_pos hv]
      · rw [if_neg hv, if_pos h]
  · intro hv hbc
    unfold DragModelLookup.getDeceleration
    rw [if_neg (not_lt.mpr hv), if_neg (not_lt.mpr hbc)]
    refine ⟨DragModelLookup.getCd model (v / c), ?_, ?_⟩
    · unfold DragModelLookup.getCd
      have hm : ¬(v / c < 0) :=
        not_lt.mpr (div_nonneg (by linarith) (le_of_lt hc))
      rw [if_neg hm]
      exact interpolate_CdSpec _ _ (dragTable_length_ge model)
    · simp only [BCE_STD_AIR_DENSITY, BCE_BALLISTIC_DRAG_CONSTANT]
      push_cast
      ring

/-- C6 witness: the deceleration characterisation applied at v = 400 m/s,
c = 340 m/s, BC = 0.5, G1, standard density. -/
theorem getDeceleration_spec_witness :
    ∃ cd, CdSpec (castTable ℝ (dragTable DragModel.G1)) ((400 : ℝ) / 340) cd ∧
      DragModelLookup.getDeceleration (400 : ℝ) 340 (1/2) DragModel.G1 (1225/1000) =
        cd * ((1225/1000 : ℝ) / (1225/1000)) * 400 ^ 2 / ((1/2) * 900) :=
  (getDeceleration_spec DragModel.G1 400 340 (1/2) (1225/1000) (by norm_num)).2
    (by norm_num) (by norm_num)


/-- The fill loop never pushes the table index past BCE_MAX_RANGE_M. -/
theorem fillLoop_idx_le (cur : ℤ) (tp : TrajectoryPoint) :
    ∀ (fuel idx : ℕ) (tbl : ℕ → TrajectoryPoint), idx ≤ 2500 →
      (BallisticSolver.fillLoop cur tp fuel idx tbl).1 ≤ 2500 := by
  intro fuel
  induction fuel with
  | zero => intro idx tbl h; exact h
  | succ fuel ih =>
    intro idx tbl h
    simp only [BallisticSolver.fillLoop]
    by_cases hc : (idx : ℤ) < cur ∧ idx < BCE_TRAJ_TABLE_SIZE - 1
    · rw [if_pos hc]
      have h2 := hc.2
      simp only [BCE_TRAJ_TABLE_SIZE, BCE_MAX_RANGE_M] at h2
      exact ih _ _ (by omega)
    · rw [if_neg hc]
      exact h

/-- The fill loop writes no slot above BCE_MAX_RANGE_M. -/
theorem fillLoop_table_high (cur : ℤ) (tp : TrajectoryPoint) :
    ∀ (fuel idx : ℕ) (tbl : ℕ → TrajectoryPoint), idx ≤ 2500 →
      ∀ n : ℕ, 2500 < n →
      (BallisticSolver.fillLoop cur tp fuel idx tbl).2 n = tbl n := by
  intro fuel
  induction fuel with
  | zero => intro idx tbl _ n _; rfl
  | succ fuel ih =>
    intro idx tbl h n hn
    simp only [BallisticSolver.fillLoop]
    by_cases hc : (idx : ℤ) < cur ∧ idx < BCE_TRAJ_TABLE_SIZE - 1
    · rw [if_pos hc]
      have h2 := hc.2
      simp only [BCE_TRAJ_TABLE_SIZE, BCE_MAX_RANGE_M] at h2
      rw [ih _ _ (by omega) n hn]
      exact Function.update_noteq (by omega) _ _
    · rw [if_neg hc]

/-- A fill step keeps the index and prefix at or below BCE_MAX_RANGE_M and
writes no slot above it. -/
theorem fillStep_inv (P : SolverParams) (st : BallisticSolver.IntegState)
    (h : st.last_range_index ≤ 2500) :
    (BallisticSolver.fillStep P st).last_range_index ≤ 2500 ∧
    (BallisticSolver.fillStep P st).max_valid_range ≤ 2500 ∧
    ∀ n : ℕ, 2500 < n → (BallisticSolver.fillStep P st).table n = st.table n := by
  simp only [BallisticSolver.fillStep]
  refine ⟨?_, ?_, fun n hn => ?_⟩
  · exact fillLoop_idx_le _ _ _ _ _ h
  · exact fillLoop_idx_le _ _ _ _ _ h
  · exact fillLoop_table_high _ _ _ _ _ h n hn

/-- One full loop-body step (RK4 then optional fill) preserves the table
invariant; the RK4 part carries the table, index and prefix unchanged. -/
theorem stepBody_inv (P : SolverParams) (fill : Bool)
    (st : BallisticSolver.IntegState) (d : ℝ)
    (h1 : st.last_range_index ≤ 2500) (h2 : st.max_valid_range ≤ 2500) :
    (if fill then BallisticSolver.fillStep P (BallisticSolver.rk4Step P st d)
      else BallisticSolver.rk4Step P st d).last_range_index ≤ 2500 ∧
    (if fill then BallisticSolver.fillStep P (BallisticSolver.rk4Step P st d)
      else BallisticSolver.rk4Step P st d).max_valid_range ≤ 2500 ∧
    ∀ n : ℕ, 2500 < n →
      (if fill then BallisticSolver.fillStep P (BallisticSolver.rk4Step P st d)
        else BallisticSolver.rk4Step P st d).table n = st.table n := by
  cases fill with
  | false => exact ⟨h1, h2, fun n _ => rfl⟩
  | true =>
    simp only [if_true]
    have hf := fillStep_inv P (BallisticSolver.rk4Step P st d) h1
    exact ⟨hf.1, hf.2.1, fun n hn => hf.2.2 n hn⟩

/-- Invariant of the main integration loop: the fill index and the valid
prefix length stay at or below BCE_MAX_RANGE_M, and slots above it are
never written. -/
theorem integLoop_inv (P : SolverParams) (range_m : ℝ) (fill : Bool) :
    ∀ (fuel : ℕ) (st : BallisticSolver.IntegState),
      st.last_range_index ≤ 2500 → st.max_valid_range ≤ 2500 →
      (BallisticSolver.integLoop P range_m fill fuel st).last_range_index ≤ 2500 ∧
      (BallisticSolver.integLoop P range_m fill fuel st).max_valid_range ≤ 2500 ∧
      ∀ n : ℕ, 2500 < n →
        (BallisticSolver.integLoop P range_m fill fuel st).table n = st.table n := by
  intro fuel
  induction fuel with
  | zero => intro st h1 h2; exact ⟨h1, h2, fun n _ => rfl⟩
  | succ fuel ih =>
    intro st h1 h2
    rw [BallisticSolver.integLoop]
    by_cases hx : st.x < range_m
    · rw [if_pos hx]
      dsimp only
      by_cases hv : Real.sqrt (st.vx * st.vx + st.vy * st.vy + st.vz * st.vz) <
          ((BCE_MIN_VELOCITY : ℚ) : ℝ)
      · rw [if_pos hv]
        exact ⟨h1, h2, fun n _ => rfl⟩
      · rw [if_neg hv]
        have hs := stepBody_inv P fill st
          (BallisticSolver.dtChoice P
            (Real.sqrt (st.vx * st.vx + st.vy * st.vy + st.vz * st.vz))) h1 h2
        have hr := ih _ hs.1 hs.2.1
        exact ⟨hr.1, hr.2.1, fun n hn => by rw [hr.2.2 n hn, hs.2.2 n hn]⟩
    · rw [if_neg hx]
      exact ⟨h1, h2, fun n _ => rfl⟩

/-- integrateToRange with fill_table = false leaves the solver state (table,
valid prefix and fill index) unchanged: every state write in the loop body
is guarded by the fill flag. -/
theorem integLoop_false_state (P : SolverParams) (range_m : ℝ) :
    ∀ (fuel : ℕ) (st : BallisticSolver.IntegState),
      (BallisticSolver.integLoop P range_m false fuel st).table = st.table ∧
      (BallisticSolver.integLoop P range_m false fuel st).max_valid_range =
        st.max_valid_range ∧
      (BallisticSolver.integLoop P range_m false fuel st).last_range_index =
        st.last_range_index := by
  intro fuel
  induction fuel with
  | zero => intro st; exact ⟨rfl, rfl, rfl⟩
  | succ fuel ih =>
    intro st
    rw [BallisticSolver.integLoop]
    by_cases hx : st.x < range_m
    · rw [if_pos hx]
      dsimp only
      by_cases hv : Real.sqrt (st.vx * st.vx + st.vy * st.vy + st.vz * st.vz) <
          ((BCE_MIN_VELOCITY : ℚ) : ℝ)
      · rw [if_pos hv]
        exact ⟨rfl, rfl, rfl⟩
      · rw [if_neg hv]
        simp only [Bool.false_eq_true, if_false]
        exact ih _
    · rw [if_neg hx]
      exact ⟨rfl, rfl, rfl⟩

/-- A fill-free integrateToRange probe returns the solver state unchanged. -/
theorem integrateToRange_false_state (sol : BallisticSolver) (P : SolverParams)
    (r : ℝ) : (sol.integrateToRange P r false).1 = sol := by
  simp only [BallisticSolver.integrateToRange, Bool.false_eq_true, if_false]
  have h := integLoop_false_state P r BCE_MAX_SOLVER_ITERATIONS
    { x := 0, y := 0, z := 0, vx := P.muzzle_velocity_ms * Real.cos P.launch_angle_rad,
      vy := P.muzzle_velocity_ms * Real.sin P.launch_angle_rad, vz := 0, t := 0,
      last_range_index := 0, table := sol.table, max_valid_range := sol.max_valid_range }
  rw [BallisticSolver.mk.injEq]
  exact ⟨h.1, h.2.1⟩

/-- State invariant of one integrateToRange call (either fill mode). -/
theorem integrateToRange_inv (sol : BallisticSolver) (P : SolverParams)
    (r : ℝ) (fill : Bool) (h1 : sol.max_valid_range ≤ 2500) :
    (sol.integrateToRange P r fill).1.max_valid_range ≤ 2500 ∧
    ∀ n : ℕ, 2500 < n → (sol.integrateToRange P r fill).1.table n = sol.table n := by
  simp only [BallisticSolver.integrateToRange]
  cases fill with
  | false =>
    simp only [Bool.false_eq_true, if_false]
    have h := integLoop_inv P r false BCE_MAX_SOLVER_ITERATIONS
      { x := 0, y := 0, z := 0, vx := P.muzzle_velocity_ms * Real.cos P.launch_angle_rad,
        vy := P.muzzle_velocity_ms * Real.sin P.launch_angle_rad, vz := 0, t := 0,
        last_range_index := 0, table := sol.table, max_valid_range := sol.max_valid_range }
      (by norm_num) h1
    exact ⟨h.2.1, fun n hn => h.2.2 n hn⟩
  | true =>
    simp only [if_true]
    have h := integLoop_inv P r true BCE_MAX_SOLVER_ITERATIONS
      { x := 0, y := 0, z := 0, vx := P.muzzle_velocity_ms * Real.cos P.launch_angle_rad,
        vy := P.muzzle_velocity_ms * Real.sin P.launch_angle_rad, vz := 0, t := 0,
        last_range_index := 0,
        table := Function.update sol.table 0
          ⟨0, 0, P.muzzle_velocity_ms, 0,
           (1/2) * P.bullet_mass_kg * P.muzzle_velocity_ms * P.muzzle_velocity_ms⟩,
        max_valid_range := sol.max_valid_range }
      (by norm_num) h1
    refine ⟨h.2.1, fun n hn => ?_⟩
    rw [h.2.2 n hn]
    exact Function.update_noteq (by omega) _ _

/-- State invariant of a full integrate call. -/
theorem integrate_state_inv (sol : BallisticSolver) (P : SolverParams)
    (h1 : sol.max_valid_range ≤ 2500)
    (h2 : ∀ n : ℕ, 2500 < n → sol.table n = TrajectoryPoint.zero) :
    (sol.integrate P).1.max_valid_range ≤ 2500 ∧
    ∀ n : ℕ, 2500 < n → (sol.integrate P).1.table n = TrajectoryPoint.zero := by
  have hit := integrateToRange_inv sol P P.target_range_m true h1
  simp only [BallisticSolver.integrate]
  split
  · exact ⟨h1, h2⟩
  · split
    · exact ⟨hit.1, fun n hn => by rw [hit.2 n hn]; exact h2 n hn⟩
    · split
      · exact ⟨hit.1, fun n hn => by rw [hit.2 n hn]; exact h2 n hn⟩
      · exact ⟨hit.1, fun n hn => by rw [hit.2 n hn]; exact h2 n hn⟩

/-- Solver states reachable by any sequence of init, solveZeroAngle and
integrate calls (solveZeroAngle probes with fill_table = false and leaves
the state unchanged, integrateToRange_false_state). -/
inductive SolverReach : BallisticSolver → Prop
  | init : SolverReach BallisticSolver.init
  | zeroCall (P : SolverParams) (z : ℝ) {s : BallisticSolver} :
      SolverReach s → SolverReach s
  | integCall (P : SolverParams) {s : BallisticSolver} :
      SolverReach s → SolverReach (s.integrate P).1

/-- C10: in every solver state reachable by init, solveZeroAngle and
integrate calls, max_valid_range never exceeds 2500, no table slot above
index 2500 is ever written (slots above hold their init value), and
getPointAt r is null exactly when r < 0, r > max_valid_range or r ≥ 2501,
otherwise returning a view of entry r. -/
theorem solver_table_safety (s : BallisticSolver) (hs : SolverReach s) :
    s.max_valid_range ≤ 2500 ∧
    (∀ n : ℕ, 2500 < n → s.table n = TrajectoryPoint.zero) ∧
    (∀ r : ℤ, (s.getPointAt r = none ↔
        (r < 0 ∨ (s.max_valid_range : ℤ) < r ∨ 2501 ≤ r)) ∧
      (0 ≤ r → r ≤ (s.max_valid_range : ℤ) →
        s.getPointAt r = some (s.table r.toNat))) := by
  have main : s.max_valid_range ≤ 2500 ∧
      ∀ n : ℕ, 2500 < n → s.table n = TrajectoryPoint.zero := by
    induction hs with
    | init => exact ⟨by norm_num [BallisticSolver.init], fun n _ => rfl⟩
    | zeroCall P z _ ih => exact ih
    | integCall P _ ih => exact integrate_state_inv _ _ ih.1 ih.2
  have hts : ((BCE_TRAJ_TABLE_SIZE : ℕ) : ℤ) = 2501 := by
    simp [BCE_TRAJ_TABLE_SIZE, BCE_MAX_RANGE_M]
  refine ⟨main.1, main.2, fun r => ⟨?_, ?_⟩⟩
  · simp only [BallisticSolver.getPointAt, hts]
    split_ifs with h
    · simp only [true_iff]
      omega
    · simp only [reduceCtorEq, false_iff]
      omega
  · intro hr0 hrm
    simp only [BallisticSolver.getPointAt, hts]
    rw [if_neg (by omega)]

/-- C10 witness: the safety conjunction instantiated at the freshly
initialised solver. -/
theorem solver_table_safety_witness :
    BallisticSolver.init.max_valid_range ≤ 2500 ∧
    (∀ n : ℕ, 2500 < n → BallisticSolver.init.table n = TrajectoryPoint.zero) ∧
    (∀ r : ℤ, (BallisticSolver.init.getPointAt r = none ↔
        (r < 0 ∨ (BallisticSolver.init.max_valid_range : ℤ) < r ∨ 2501 ≤ r)) ∧
      (0 ≤ r → r ≤ (BallisticSolver.init.max_valid_range : ℤ) →
        BallisticSolver.init.getPointAt r =
          some (BallisticSolver.init.table r.toNat))) :=
  solver_table_safety BallisticSolver.init SolverReach.init

/-- If the bisection loop reports solved, the returned best angle is the very
midpoint whose probe drop met the tolerance, so re-probing it reproduces a
drop within tolerance of the target. -/
theorem solveLoop_solved (sol : BallisticSolver) (P : SolverParams) (z td : ℝ) :
    ∀ (fuel : ℕ) (lo hi best lm A L : ℝ),
      BallisticSolver.solveLoop sol P z td fuel lo hi best lm = (true, A, L) →
      ∃ d, (sol.integrateToRange { P with launch_angle_rad := A } z false).2 = some d ∧
        |d - td| < ((BCE_ZERO_TOLERANCE_M : ℚ) : ℝ) := by
  intro fuel
  induction fuel with
  | zero =>
    intro lo hi best lm A L h
    rw [BallisticSolver.solveLoop] at h
    simp only [Prod.mk.injEq] at h
    exact absurd h.1 (by simp)
  | succ fuel ih =>
    intro lo hi best lm A L h
    rw [BallisticSolver.solveLoop] at h
    dsimp only at h
    rcases hp : (sol.integrateToRange
        { P with launch_angle_rad := (lo + hi) * (1/2) } z false).2 with _ | d
    · rw [hp] at h
      exact ih _ _ _ _ _ _ h
    · rw [hp] at h
      dsimp only at h
      by_cases ht : |d - td| < ((BCE_ZERO_TOLERANCE_M : ℚ) : ℝ)
      · rw [if_pos ht] at h
        simp only [Prod.mk.injEq] at h
        obtain ⟨-, hA, -⟩ := h
        exact ⟨d, by rw [← hA]; exact hp, ht⟩
      · rw [if_neg ht] at h
        exact ih _ _ _ _ _ _ h

/-- If the bisection loop exhausts its fuel unsolved, the returned best angle
equals the last midpoint tried, except when that last probe did not reach
the target range (in which case the post-loop re-probe fails as well). -/
theorem solveLoop_unsolved (sol : BallisticSolver) (P : SolverParams) (z td : ℝ) :
    ∀ (fuel : ℕ) (lo hi best lm A L : ℝ),
      BallisticSolver.solveLoop sol P z td (fuel + 1) lo hi best lm = (false, A, L) →
      A = L ∨
        (sol.integrateToRange { P with launch_angle_rad := L } z false).2 = none := by
  intro fuel
  induction fuel with
  | zero =>
    intro lo hi best lm A L h
    rw [BallisticSolver.solveLoop] at h
    dsimp only at h
    rcases hp : (sol.integrateToRange
        { P with launch_angle_rad := (lo + hi) * (1/2) } z false).2 with _ | d
    · rw [hp] at h
      dsimp only at h
      rw [BallisticSolver.solveLoop] at h
      simp only [Prod.mk.injEq] at h
      right
      rw [← h.2.2]
      exact hp
    · rw [hp] at h
      dsimp only at h
      by_cases ht : |d - td| < ((BCE_ZERO_TOLERANCE_M : ℚ) : ℝ)
      · rw [if_pos ht] at h
        simp only [Prod.mk.injEq] at h
        exact absurd h.1 (by simp)
      · rw [if_neg ht] at h
        rw [BallisticSolver.solveLoop] at h
        simp only [Prod.mk.injEq] at h
        left
        rw [← h.2.1, ← h.2.2]
  | succ fuel ih =>
    intro lo hi best lm A L h
    rw [BallisticSolver.solveLoop] at h
    dsimp only at h
    rcases hp : (sol.integrateToRange
        { P with launch_angle_rad := (lo + hi) * (1/2) } z false).2 with _ | d
    · rw [hp] at h
      dsimp only at h
      exact ih _ _ _ _ _ _ h
    · rw [hp] at h
      dsimp only at h
      by_cases ht : |d - td| < ((BCE_ZERO_TOLERANCE_M : ℚ) : ℝ)
      · rw [if_pos ht] at h
        simp only [Prod.mk.injEq] at h
        exact absurd h.1 (by simp)
      · rw [if_neg ht] at h
        exact ih _ _ _ _ _ _ h

/-- C2: for every solver parameter set, solver state and zero range,
solveZeroAngle (whose bisection performs at most BCE_ZERO_MAX_ITERATIONS =
50 iterations by construction, the fuel literal in its definition) either
returns none (the NAN result) or returns an angle A whose fill-free probe
at the zero range yields a drop within BCE_ZERO_TOLERANCE_M = 0.001 m of
-sight_height: the returned zero angle is a fixed point of the integrator
to within 1 mm. -/
theorem solveZeroAngle_fixed_point (sol : BallisticSolver) (P : SolverParams)
    (z : ℝ) :
    sol.solveZeroAngle P z = none ∨
    ∃ A d, sol.solveZeroAngle P z = some A ∧
      (sol.integrateToRange { P with launch_angle_rad := A } z false).2 = some d ∧
      |d - (-P.sight_height_m)| < ((BCE_ZERO_TOLERANCE_M : ℚ) : ℝ) := by
  unfold BallisticSolver.solveZeroAngle
  by_cases hz : z < 1 ∨ z > ((BCE_MAX_RANGE_M : ℕ) : ℝ)
  · rw [if_pos hz]
    exact Or.inl rfl
  · rw [if_neg hz]
    dsimp only
    rcases hr : BallisticSolver.solveLoop sol P z (-P.sight_height_m)
        BCE_ZERO_MAX_ITERATIONS (-5 * BCE_DEG_TO_RAD) (5 * BCE_DEG_TO_RAD) 0
        P.launch_angle_rad with ⟨b, A, L⟩
    cases b with
    | true =>
      dsimp only
      rw [if_pos rfl]
      obtain ⟨d, hd, ht⟩ := solveLoop_solved sol P z (-P.sight_height_m)
        BCE_ZERO_MAX_ITERATIONS (-5 * BCE_DEG_TO_RAD) (5 * BCE_DEG_TO_RAD) 0
        P.launch_angle_rad A L hr
      exact Or.inr ⟨A, d, rfl, hd, ht⟩
    | false =>
      dsimp only
      rw [if_neg (by simp)]
      have h50 : BCE_ZERO_MAX_ITERATIONS = 49 + 1 := rfl
      rw [h50] at hr
      have hAL := solveLoop_unsolved sol P z (-P.sight_height_m) 49
        (-5 * BCE_DEG_TO_RAD) (5 * BCE_DEG_TO_RAD) 0 P.launch_angle_rad A L hr
      rcases hp : (sol.integrateToRange
          { P with launch_angle_rad := L } z false).2 with _ | d
      · exact Or.inl rfl
      · dsimp only
        by_cases ht : |d - -P.sight_height_m| < ((BCE_ZERO_TOLERANCE_M : ℚ) : ℝ)
        · rw [if_pos ht]
          rcases hAL with hAL | hAL
          · subst hAL
            exact Or.inr ⟨A, d, rfl, hp, ht⟩
          · rw [hAL] at hp
            cases hp
        · rw [if_neg ht]
          exact Or.inl rfl

/-- The bias-corrected accel magnitude pushed into the static-detection ring
buffer when the biases are zero. -/
noncomputable def staticMag (ax ay az : ℝ) : ℝ :=
  Real.sqrt ((ax - 0) * (ax - 0) + (ay - 0) * (ay - 0) + (az - 0) * (az - 0))

/-- A constant-input update sequence from the freshly initialised manager:
the static scenario of the spec (the same sample arriving every tick). -/
noncomputable def AHRSManager.iterate (ax ay az gx gy gz mx my mz : ℝ)
    (use_mag : Bool) (dt : ℝ) : ℕ → AHRSManager
  | 0 => AHRSManager.init
  | n + 1 => (AHRSManager.iterate ax ay az gx gy gz mx my mz use_mag dt n).update
      ax ay az gx gy gz mx my mz use_mag dt

/-- State characterisation of the constant-input sequence: the sample count
saturates at the window size, the ring buffer progressively fills with the
constant magnitude, and is_static first turns true on update 65 (window
size plus one), when the variance of the full constant buffer (zero) is
first computed. -/
theorem iterate_static_inv (ax ay az gx gy gz mx my mz : ℝ) (use_mag : Bool)
    (dt : ℝ) :
    ∀ n : ℕ,
      (AHRSManager.iterate ax ay az gx gy gz mx my mz use_mag dt n).algorithm =
        AHRS_Algorithm.MADGWICK ∧
      (AHRSManager.iterate ax ay az gx gy gz mx my mz use_mag dt n).accel_bias =
        (0, 0, 0) ∧
      (AHRSManager.iterate ax ay az gx gy gz mx my mz use_mag dt n).sample_count =
        min n 64 ∧
      ((AHRSManager.iterate ax ay az gx gy gz mx my mz use_mag dt n).buf_index : ℕ) =
        n % 64 ∧
      (∀ i : Fin 64, (i : ℕ) < n →
        (AHRSManager.iterate ax ay az gx gy gz mx my mz use_mag dt n).accel_mag_buf i =
          staticMag ax ay az) ∧
      (AHRSManager.iterate ax ay az gx gy gz mx my mz use_mag dt n).is_static =
        decide (64 < n) := by
  intro n
  induction n with
  | zero =>
    exact ⟨rfl, rfl, rfl, rfl, fun i hi => absurd hi (by omega), rfl⟩
  | succ n ih =>
    obtain ⟨halg, hbias, hcount, hidx, hbuf, _hstat⟩ := ih
    have hstep : AHRSManager.iterate ax ay az gx gy gz mx my mz use_mag dt (n + 1) =
        (AHRSManager.iterate ax ay az gx gy gz mx my mz use_mag dt n).update
          ax ay az gx gy gz mx my mz use_mag dt := rfl
    set S := AHRSManager.iterate ax ay az gx gy gz mx my mz use_mag dt n with hS
    have h1v : ((1 : Fin 64) : ℕ) = 1 := rfl
    rw [hstep]
    rw [AHRSManager.update, hbias, halg]
    dsimp only
    rw [AHRSManager.updateStaticDetection]
    dsimp only
    by_cases hn : n < 64
    · rw [if_pos (by simp only [hcount, BCE_AHRS_STATIC_WINDOW]; omega)]
      dsimp only
      refine ⟨rfl, rfl, ?_, ?_, ?_, ?_⟩
      · simp only [hcount]; omega
      · simp only [Fin.val_add, hidx, h1v]
        omega
      · intro i hi
        by_cases hieq : i = S.buf_index
        · subst hieq
          rw [Function.update_same]
          rfl
        · rw [Function.update_noteq hieq]
          refine hbuf i ?_
          have hne : (i : ℕ) ≠ n % 64 := by
            intro hv
            exact hieq (Fin.ext (by rw [hv, hidx]))
          have : n % 64 = n := Nat.mod_eq_of_lt (by omega)
          omega
      · symm
        exact decide_eq_false (by omega)
    · rw [if_neg (by simp only [hcount, BCE_AHRS_STATIC_WINDOW]; omega)]
      dsimp only
      have hall : ∀ i : Fin 64,
          Function.update S.accel_mag_buf S.buf_index
            (Real.sqrt ((ax - 0) * (ax - 0) + (ay - 0) * (ay - 0) + (az - 0) * (az - 0))) i =
          staticMag ax ay az := by
        intro i
        by_cases hieq : i = S.buf_index
        · subst hieq
          rw [Function.update_same]
          rfl
        · rw [Function.update_noteq hieq]
          exact hbuf i (by omega)
      have hmean : (∑ i : Fin 64,
          Function.update S.accel_mag_buf S.buf_index
            (Real.sqrt ((ax - 0) * (ax - 0) + (ay - 0) * (ay - 0) + (az - 0) * (az - 0))) i) / 64 =
          staticMag ax ay az := by
        rw [Finset.sum_congr rfl (fun i _ => hall i)]
        rw [Finset.sum_const, Finset.card_univ, Fintype.card_fin, nsmul_eq_mul]
        norm_num
      have hvar : (∑ i : Fin 64,
          (Function.update S.accel_mag_buf S.buf_index
            (Real.sqrt ((ax - 0) * (ax - 0) + (ay - 0) * (ay - 0) + (az - 0) * (az - 0))) i -
            (∑ j : Fin 64, Function.update S.accel_mag_buf S.buf_index
              (Real.sqrt ((ax - 0) * (ax - 0) + (ay - 0) * (ay - 0) + (az - 0) * (az - 0))) j) / 64) *
          (Function.update S.accel_mag_buf S.buf_index
            (Real.sqrt ((ax - 0) * (ax - 0) + (ay - 0) * (ay - 0) + (az - 0) * (az - 0))) i -
            (∑ j : Fin 64, Function.update S.accel_mag_buf S.buf_index
              (Real.sqrt ((ax - 0) * (ax - 0) + (ay - 0) * (ay - 0) + (az - 0) * (az - 0))) j) / 64)) / 64 = 0 := by
        rw [Finset.sum_congr rfl (fun i _ => by rw [hall i, hmean])]
        simp
      refine ⟨rfl, rfl, ?_, ?_, ?_, ?_⟩
      · simp only [hcount]; omega
      · simp only [Fin.val_add, hidx, h1v]
        omega
      · intro i _
        exact hall i
      · have hlt : (∑ i : Fin 64,
            (Function.update S.accel_mag_buf S.buf_index
              (Real.sqrt ((ax - 0) * (ax - 0) + (ay - 0) * (ay - 0) + (az - 0) * (az - 0))) i -
              (∑ j : Fin 64, Function.update S.accel_mag_buf S.buf_index
                (Real.sqrt ((ax - 0) * (ax - 0) + (ay - 0) * (ay - 0) + (az - 0) * (az - 0))) j) / 64) *
            (Function.update S.accel_mag_buf S.buf_index
              (Real.sqrt ((ax - 0) * (ax - 0) + (ay - 0) * (ay - 0) + (az - 0) * (az - 0))) i -
              (∑ j : Fin 64, Function.update S.accel_mag_buf S.buf_index
                (Real.sqrt ((ax - 0) * (ax - 0) + (ay - 0) * (ay - 0) + (az - 0) * (az - 0))) j) / 64)) / 64 <
            ((BCE_AHRS_STATIC_THRESHOLD : ℚ) : ℝ) := by
          rw [hvar]
          norm_num [BCE_AHRS_STATIC_THRESHOLD]
        rw [if_pos hlt]
        symm
        exact decide_eq_true (by omega)

/-- C5 counterexample: after exactly W = 64 identical (perfectly static)
samples, is_stable() is still false — the update that receives the 64th
sample takes the below-window branch (ahrs_manager.cpp lines 95-99), so the
variance is not yet computed and is_static remains false, contradicting
the claim that W or more static samples suffice. -/
theorem ahrs_exact_window_counterexample :
    (AHRSManager.iterate 0 0 10 0 0 0 0 0 0 false (1/100) 64).isStable = false := by
  have h := iterate_static_inv 0 0 10 0 0 0 0 0 0 false (1/100) 64
  rw [AHRSManager.isStable, h.2.2.2.2.2]
  simp

/-- C5 (amended): is_stable() returns true exactly when sample_count ≥ W and
is_static holds; during the first W constant-sample updates is_static stays
false (the variance is first computed on update W + 1), and after strictly
more than W static samples is_stable() holds. -/
theorem ahrs_static_window_spec (ax ay az gx gy gz mx my mz : ℝ) (use_mag : Bool)
    (dt : ℝ) (n : ℕ) :
    (∀ st : AHRSManager, st.isStable =
      (decide (st.sample_count ≥ BCE_AHRS_STATIC_WINDOW) && st.is_static)) ∧
    (n ≤ 64 →
      (AHRSManager.iterate ax ay az gx gy gz mx my mz use_mag dt n).is_static = false) ∧
    (65 ≤ n →
      (AHRSManager.iterate ax ay az gx gy gz mx my mz use_mag dt n).isStable = true) := by
  have h := iterate_static_inv ax ay az gx gy gz mx my mz use_mag dt n
  refine ⟨fun st => rfl, fun hn => ?_, fun hn => ?_⟩
  · rw [h.2.2.2.2.2]
    simp
    omega
  · rw [AHRSManager.isStable, h.2.2.1, h.2.2.2.2.2]
    simp [BCE_AHRS_STATIC_WINDOW]
    omega

/-- C5 witness: 65 constant samples from init produce a stable AHRS. -/
theorem ahrs_static_window_spec_witness :
    (AHRSManager.iterate 0 0 10 0 0 0 0 0 0 false (1/100) 65).isStable = true :=
  (ahrs_static_window_spec 0 0 10 0 0 0 0 0 0 false (1/100) 65).2.2 (by norm_num)

/-- recompute adds no invalid-input flag when the stored pressure is at least
1000 Pa and the stored humidity lies in [0, 1] (the virtual temperature is
then at least the clamped Kelvin temperature, hence at least 1), and it
never writes the sanitised input fields back. -/
theorem recompute_had_invalid (st : Atmosphere)
    (hp : 1000 ≤ st.pressure_pa) (h0 : 0 ≤ st.humidity) (h1 : st.humidity ≤ 1) :
    st.recompute.had_invalid_input = st.had_invalid_input ∧
    st.recompute.pressure_pa = st.pressure_pa ∧
    st.recompute.temperature_c = st.temperature_c ∧
    st.recompute.humidity = st.humidity ∧
    st.recompute.baro_offset_pa = st.baro_offset_pa := by
  refine ⟨?_, rfl, rfl, rfl, rfl⟩
  unfold Atmosphere.recompute
  dsimp only
  rw [if_neg (not_lt.mpr hp)]
  dsimp only
  rw [if_neg (not_lt.mpr h0)]
  dsimp only
  rw [if_neg (not_lt.mpr h1)]
  dsimp only
  have hTk : (1 : ℝ) ≤
      ((if st.temperature_c + BCE_KELVIN_OFFSET < 1 then 1
        else st.temperature_c + BCE_KELVIN_OFFSET : ℚ) : ℝ) := by
    split_ifs with hcond
    · norm_num
    · exact_mod_cast not_lt.mp hcond
  have hpr : (0 : ℝ) < ((st.pressure_pa : ℚ) : ℝ) := by
    have h : (1000 : ℚ) ≤ st.pressure_pa := hp
    have : (1000 : ℝ) ≤ ((st.pressure_pa : ℚ) : ℝ) := by exact_mod_cast h
    linarith
  have hh0r : (0 : ℝ) ≤ ((st.humidity : ℚ) : ℝ) := by exact_mod_cast h0
  have hfrac : (0 : ℝ) ≤ 0.378 * (((st.humidity : ℚ) : ℝ) *
      (611.21 * Real.exp ((18.678 - ((st.temperature_c : ℚ) : ℝ) / 234.5) *
        (((st.temperature_c : ℚ) : ℝ) / (257.14 + ((st.temperature_c : ℚ) : ℝ)))))) /
      ((st.pressure_pa : ℚ) : ℝ) := by
    have hexp : (0 : ℝ) < Real.exp ((18.678 - ((st.temperature_c : ℚ) : ℝ) / 234.5) *
        (((st.temperature_c : ℚ) : ℝ) / (257.14 + ((st.temperature_c : ℚ) : ℝ)))) :=
      Real.exp_pos _
    positivity
  rw [if_neg (not_lt.mpr ?hTv)]
  case hTv =>
    calc (1 : ℝ) = 1 * 1 := by ring
    _ ≤ ((if st.temperature_c + BCE_KELVIN_OFFSET < 1 then 1
          else st.temperature_c + BCE_KELVIN_OFFSET : ℚ) : ℝ) *
        (1 + 0.378 * (((st.humidity : ℚ) : ℝ) *
          (611.21 * Real.exp ((18.678 - ((st.temperature_c : ℚ) : ℝ) / 234.5) *
            (((st.temperature_c : ℚ) : ℝ) / (257.14 + ((st.temperature_c : ℚ) : ℝ)))))) /
          ((st.pressure_pa : ℚ) : ℝ)) := by
      apply mul_le_mul hTk (by linarith) (by norm_num) (le_trans zero_le_one hTk)

/-- Whether the pressure channel of updateFromBaro clamps or replaces its
input (atmosphere.cpp lines 62-76): any non-finite raw value, or an
offset-corrected value outside [1000, 120000] Pa. -/
def pressureEvent (off : ℚ) (p : Fl) : Bool :=
  match p with
  | .fin x => decide (x + off < 1000) || decide (x + off > 120000)
  | _ => true

/-- Whether the temperature channel of updateFromBaro clamps or replaces its
input (atmosphere.cpp lines 78-91): non-finite, or outside [-80, 80] C. -/
def temperatureEvent (t : Fl) : Bool :=
  match t with
  | .fin x => decide (x < -80) || decide (x > 80)
  | _ => true

/-- Whether the humidity branch of updateFromBaro flags its input
(atmosphere.cpp lines 93-108): only values that compare >= 0 but fail the
[0, 1] acceptance test do; NaN and negative values fall through both
branches silently. -/
def humidityEvent (h : Fl) : Bool :=
  Fl.le (.fin 0) h && !(Fl.le (.fin 0) h && Fl.le h (.fin 1))

/-- The pressure stage flags exactly on a pressureEvent, leaves the stored
pressure in [1000, 120000] Pa, and touches no other sanitised field. -/
theorem baroPressureStage_spec (st : Atmosphere) (p : Fl) :
    (st.baroPressureStage p).had_invalid_input =
      (st.had_invalid_input || pressureEvent st.baro_offset_pa p) ∧
    1000 ≤ (st.baroPressureStage p).pressure_pa ∧
    (st.baroPressureStage p).pressure_pa ≤ 120000 ∧
    (st.baroPressureStage p).temperature_c = st.temperature_c ∧
    (st.baroPressureStage p).humidity = st.humidity ∧
    (st.baroPressureStage p).baro_offset_pa = st.baro_offset_pa := by
  cases p with
  | fin x =>
    unfold Atmosphere.baroPressureStage pressureEvent
    dsimp only
    split_ifs with h1 h2 <;> dsimp only
    · exact ⟨by simp [h1], le_refl _, by norm_num, rfl, rfl, rfl⟩
    · exact ⟨by simp [h1, h2], by norm_num, le_refl _, rfl, rfl, rfl⟩
    · exact ⟨by simp [h1, h2], not_lt.mp h1, not_lt.mp h2, rfl, rfl, rfl⟩
  | nan =>
    exact ⟨rfl, by norm_num [Atmosphere.baroPressureStage, BCE_DEFAULT_PRESSURE_PA],
      by norm_num [Atmosphere.baroPressureStage, BCE_DEFAULT_PRESSURE_PA], rfl, rfl, rfl⟩
  | pinf =>
    exact ⟨rfl, by norm_num [Atmosphere.baroPressureStage, BCE_DEFAULT_PRESSURE_PA],
      by norm_num [Atmosphere.baroPressureStage, BCE_DEFAULT_PRESSURE_PA], rfl, rfl, rfl⟩
  | ninf =>
    exact ⟨rfl, by norm_num [Atmosphere.baroPressureStage, BCE_DEFAULT_PRESSURE_PA],
      by norm_num [Atmosphere.baroPressureStage, BCE_DEFAULT_PRESSURE_PA], rfl, rfl, rfl⟩

/-- The temperature stage flags exactly on a temperatureEvent, leaves the
stored temperature in [-80, 80] C, and touches no other sanitised field. -/
theorem baroTemperatureStage_spec (st : Atmosphere) (t : Fl) :
    (st.baroTemperatureStage t).had_invalid_input =
      (st.had_invalid_input || temperatureEvent t) ∧
    -80 ≤ (st.baroTemperatureStage t).temperature_c ∧
    (st.baroTemperatureStage t).temperature_c ≤ 80 ∧
    (st.baroTemperatureStage t).pressure_pa = st.pressure_pa ∧
    (st.baroTemperatureStage t).humidity = st.humidity ∧
    (st.baroTemperatureStage t).baro_offset_pa = st.baro_offset_pa := by
  cases t with
  | fin x =>
    unfold Atmosphere.baroTemperatureStage temperatureEvent
    dsimp only
    split_ifs with h1 h2 <;> dsimp only
    · exact ⟨by simp [h1], le_refl _, by norm_num, rfl, rfl, rfl⟩
    · exact ⟨by simp [h1, h2], by norm_num, le_refl _, rfl, rfl, rfl⟩
    · exact ⟨by simp [h1, h2], not_lt.mp h1, not_lt.mp h2, rfl, rfl, rfl⟩
  | nan =>
    exact ⟨rfl, by norm_num [Atmosphere.baroTemperatureStage, BCE_DEFAULT_TEMPERATURE_C],
      by norm_num [Atmosphere.baroTemperatureStage, BCE_DEFAULT_TEMPERATURE_C], rfl, rfl, rfl⟩
  | pinf =>
    exact ⟨rfl, by norm_num [Atmosphere.baroTemperatureStage, BCE_DEFAULT_TEMPERATURE_C],
      by norm_num [Atmosphere.baroTemperatureStage, BCE_DEFAULT_TEMPERATURE_C], rfl, rfl, rfl⟩
  | ninf =>
    exact ⟨rfl, by norm_num [Atmosphere.baroTemperatureStage, BCE_DEFAULT_TEMPERATURE_C],
      by norm_num [Atmosphere.baroTemperatureStage, BCE_DEFAULT_TEMPERATURE_C], rfl, rfl, rfl⟩

/-- The humidity branch flags exactly on a humidityEvent, keeps the stored
humidity in [0, 1] (given it was), touches no other sanitised field, is the
identity whenever the raw value does not compare >= 0 (NaN, negatives,
negative infinity), and stores the raw value whenever it is accepted. -/
theorem baroHumidityStage_spec (st : Atmosphere) (h : Fl)
    (hh0 : 0 ≤ st.humidity) (hh1 : st.humidity ≤ 1) :
    (st.baroHumidityStage h).had_invalid_input =
      (st.had_invalid_input || humidityEvent h) ∧
    0 ≤ (st.baroHumidityStage h).humidity ∧
    (st.baroHumidityStage h).humidity ≤ 1 ∧
    (st.baroHumidityStage h).pressure_pa = st.pressure_pa ∧
    (st.baroHumidityStage h).temperature_c = st.temperature_c ∧
    (st.baroHumidityStage h).baro_offset_pa = st.baro_offset_pa ∧
    (Fl.le (.fin 0) h = false → st.baroHumidityStage h = st) ∧
    ((Fl.le (.fin 0) h && Fl.le h (.fin 1)) = true →
      (st.baroHumidityStage h).humidity = h.toQ) := by
  cases h with
  | fin x =>
    by_cases h0 : (0 : ℚ) ≤ x
    · by_cases h1 : x ≤ 1
      · refine ⟨?_, ?_, ?_, ?_, ?_, ?_, ?_, ?_⟩ <;>
          simp [Atmosphere.baroHumidityStage, humidityEvent, Fl.le, Fl.toQ, h0, h1]
      · have h1' : (1 : ℚ) < x := not_le.mp h1
        have h2 : ¬ (x < 0) := not_lt.mpr h0
        refine ⟨?_, ?_, ?_, ?_, ?_, ?_, ?_, ?_⟩ <;>
          simp [Atmosphere.baroHumidityStage, humidityEvent, Fl.le, Fl.lt, Fl.isFinite,
            h0, h1, h1', h2]
    · refine ⟨?_, ?_, ?_, ?_, ?_, ?_, ?_, ?_⟩ <;>
        simp [Atmosphere.baroHumidityStage, humidityEvent, Fl.le, h0, hh0, hh1]
  | nan =>
    refine ⟨?_, ?_, ?_, ?_, ?_, ?_, ?_, ?_⟩ <;>
      simp [Atmosphere.baroHumidityStage, humidityEvent, Fl.le, hh0, hh1]
  | pinf =>
    refine ⟨?_, ?_, ?_, ?_, ?_, ?_, ?_, ?_⟩ <;>
      simp [Atmosphere.baroHumidityStage, humidityEvent, Fl.le, Fl.isFinite,
        BCE_DEFAULT_HUMIDITY] <;> norm_num
  | ninf =>
    refine ⟨?_, ?_, ?_, ?_, ?_, ?_, ?_, ?_⟩ <;>
      simp [Atmosphere.baroHumidityStage, humidityEvent, Fl.le, hh0, hh1]

/-- Full characterisation of updateFromBaro (atmosphere.cpp lines 56-111):
the per-update flag is rebuilt from exactly the three channel events, the
stored pressure, temperature and humidity respect the documented ranges,
the calibration offset is untouched, and the humidity channel ignores NaN
and negative inputs while storing accepted ones verbatim. -/
theorem updateFromBaro_core (st : Atmosphere) (p t h : Fl)
    (hh0 : 0 ≤ st.humidity) (hh1 : st.humidity ≤ 1) :
    (st.updateFromBaro p t h).had_invalid_input =
      (pressureEvent st.baro_offset_pa p || temperatureEvent t || humidityEvent h) ∧
    1000 ≤ (st.updateFromBaro p t h).pressure_pa ∧
    (st.updateFromBaro p t h).pressure_pa ≤ 120000 ∧
    -80 ≤ (st.updateFromBaro p t h).temperature_c ∧
    (st.updateFromBaro p t h).temperature_c ≤ 80 ∧
    0 ≤ (st.updateFromBaro p t h).humidity ∧
    (st.updateFromBaro p t h).humidity ≤ 1 ∧
    (st.updateFromBaro p t h).baro_offset_pa = st.baro_offset_pa ∧
    (Fl.le (.fin 0) h = false → (st.updateFromBaro p t h).humidity = st.humidity) ∧
    ((Fl.le (.fin 0) h && Fl.le h (.fin 1)) = true →
      (st.updateFromBaro p t h).humidity = h.toQ) := by
  unfold Atmosphere.updateFromBaro
  dsimp only
  set s1 : Atmosphere := { st with
    had_invalid_input := false
    has_baro_pressure := true
    has_baro_temperature := true } with hs1
  have hs1f : s1.had_invalid_input = false := by rw [hs1]
  have hs1o : s1.baro_offset_pa = st.baro_offset_pa := by rw [hs1]
  have hs1h : s1.humidity = st.humidity := by rw [hs1]
  obtain ⟨f2, p2lo, p2hi, t2, u2, o2⟩ := baroPressureStage_spec s1 p
  obtain ⟨f3, t3lo, t3hi, p3, u3, o3⟩ := baroTemperatureStage_spec (s1.baroPressureStage p) t
  have hu0 : 0 ≤ ((s1.baroPressureStage p).baroTemperatureStage t).humidity := by
    rw [u3, u2, hs1h]; exact hh0
  have hu1 : ((s1.baroPressureStage p).baroTemperatureStage t).humidity ≤ 1 := by
    rw [u3, u2, hs1h]; exact hh1
  obtain ⟨f4, u4lo, u4hi, p4, t4, o4, hskip, hacc⟩ :=
    baroHumidityStage_spec ((s1.baroPressureStage p).baroTemperatureStage t) h hu0 hu1
  obtain ⟨fR, pR, tR, uR, oR⟩ := recompute_had_invalid
    (((s1.baroPressureStage p).baroTemperatureStage t).baroHumidityStage h)
    (by rw [p4, p3]; exact p2lo) u4lo u4hi
  refine ⟨?_, ?_, ?_, ?_, ?_, ?_, ?_, ?_, ?_, ?_⟩
  · rw [fR, f4, f3, f2, hs1f, hs1o]
    simp [Bool.or_assoc]
  · rw [pR, p4, p3]; exact p2lo
  · rw [pR, p4, p3]; exact p2hi
  · rw [tR, t4]; exact t3lo
  · rw [tR, t4]; exact t3hi
  · rw [uR]; exact u4lo
  · rw [uR]; exact u4hi
  · rw [oR, o4, o3, o2, hs1o]
  · intro hle
    rw [uR, hskip hle, u3, u2, hs1h]
  · intro hle
    rw [uR, hacc hle]

/-- C4: on every barometer update the stored pressure ends in [1000, 120000]
Pa and the stored temperature in [-80, 80] C, with non-finite inputs
replaced by the ISA defaults, and the per-update had_invalid_input flag is
rebuilt from exactly the three channel events; however the humidity channel
deviates from the claimed sanitisation: only raw values that compare >= 0
are accepted, clamped or flagged — NaN and negative humidity fall through
both branches (atmosphere.cpp lines 93-108), leaving the stored humidity
unchanged and raising no flag. -/
theorem updateFromBaro_sanitisation (st : Atmosphere) (p t h : Fl)
    (hh0 : 0 ≤ st.humidity) (hh1 : st.humidity ≤ 1) :
    (st.updateFromBaro p t h).had_invalid_input =
      (pressureEvent st.baro_offset_pa p || temperatureEvent t || humidityEvent h) ∧
    1000 ≤ (st.updateFromBaro p t h).pressure_pa ∧
    (st.updateFromBaro p t h).pressure_pa ≤ 120000 ∧
    -80 ≤ (st.updateFromBaro p t h).temperature_c ∧
    (st.updateFromBaro p t h).temperature_c ≤ 80 ∧
    0 ≤ (st.updateFromBaro p t h).humidity ∧
    (st.updateFromBaro p t h).humidity ≤ 1 ∧
    (st.updateFromBaro p t h).baro_offset_pa = st.baro_offset_pa ∧
    (Fl.le (.fin 0) h = false → (st.updateFromBaro p t h).humidity = st.humidity) ∧
    ((Fl.le (.fin 0) h && Fl.le h (.fin 1)) = true →
      (st.updateFromBaro p t h).humidity = h.toQ) :=
  updateFromBaro_core st p t h hh0 hh1

/-- Witness for updateFromBaro_sanitisation at the freshly initialised
atmosphere and a fully valid frame. -/
theorem updateFromBaro_sanitisation_witness :
    0 ≤ Atmosphere.init.humidity ∧ Atmosphere.init.humidity ≤ 1 ∧
    ((Atmosphere.init.updateFromBaro (.fin 90000) (.fin 20) (.fin (1/4))).had_invalid_input =
      (pressureEvent Atmosphere.init.baro_offset_pa (.fin 90000) ||
        temperatureEvent (.fin 20) || humidityEvent (.fin (1/4))) ∧
    1000 ≤ (Atmosphere.init.updateFromBaro (.fin 90000) (.fin 20) (.fin (1/4))).pressure_pa ∧
    (Atmosphere.init.updateFromBaro (.fin 90000) (.fin 20) (.fin (1/4))).pressure_pa ≤ 120000 ∧
    -80 ≤ (Atmosphere.init.updateFromBaro (.fin 90000) (.fin 20) (.fin (1/4))).temperature_c ∧
    (Atmosphere.init.updateFromBaro (.fin 90000) (.fin 20) (.fin (1/4))).temperature_c ≤ 80 ∧
    0 ≤ (Atmosphere.init.updateFromBaro (.fin 90000) (.fin 20) (.fin (1/4))).humidity ∧
    (Atmosphere.init.updateFromBaro (.fin 90000) (.fin 20) (.fin (1/4))).humidity ≤ 1 ∧
    (Atmosphere.init.updateFromBaro (.fin 90000) (.fin 20) (.fin (1/4))).baro_offset_pa =
      Atmosphere.init.baro_offset_pa ∧
    (Fl.le (.fin 0) (.fin (1/4)) = false →
      (Atmosphere.init.updateFromBaro (.fin 90000) (.fin 20) (.fin (1/4))).humidity =
        Atmosphere.init.humidity) ∧
    ((Fl.le (.fin 0) (.fin (1/4)) && Fl.le (.fin (1/4)) (.fin 1)) = true →
      (Atmosphere.init.updateFromBaro (.fin 90000) (.fin 20) (.fin (1/4))).humidity =
        Fl.toQ (.fin (1/4)))) := by
  have h0 : (0 : ℚ) ≤ Atmosphere.init.humidity := by
    rw [show Atmosphere.init.humidity = (1/2 : ℚ) from rfl]; norm_num
  have h1 : Atmosphere.init.humidity ≤ 1 := by
    rw [show Atmosphere.init.humidity = (1/2 : ℚ) from rfl]; norm_num
  exact ⟨h0, h1,
    updateFromBaro_sanitisation Atmosphere.init (.fin 90000) (.fin 20) (.fin (1/4)) h0 h1⟩

/-- Counterexample to C4 as stated: after a valid barometer update storing
humidity 0.3, a second update with NaN humidity leaves the stored humidity
at 0.3 and sets no invalid-input flag — the NaN is neither replaced by the
ISA default nor reported, contradicting the claimed all-channel
sanitisation. -/
theorem baro_nan_humidity_counterexample :
    ((Atmosphere.init.updateFromBaro (.fin 101325) (.fin 15)
        (.fin (3/10))).updateFromBaro (.fin 101325) (.fin 15) .nan).had_invalid_input
      = false ∧
    ((Atmosphere.init.updateFromBaro (.fin 101325) (.fin 15)
        (.fin (3/10))).updateFromBaro (.fin 101325) (.fin 15) .nan).humidity = 3/10 := by
  have h0 : (0 : ℚ) ≤ Atmosphere.init.humidity := by
    rw [show Atmosphere.init.humidity = (1/2 : ℚ) from rfl]; norm_num
  have h1 : Atmosphere.init.humidity ≤ 1 := by
    rw [show Atmosphere.init.humidity = (1/2 : ℚ) from rfl]; norm_num
  obtain ⟨_, _, _, _, _, _, _, o1, _, acc1⟩ :=
    updateFromBaro_core Atmosphere.init (.fin 101325) (.fin 15) (.fin (3/10)) h0 h1
  have hum1 : (Atmosphere.init.updateFromBaro (.fin 101325) (.fin 15)
      (.fin (3/10))).humidity = 3/10 := by
    rw [acc1 (by norm_num [Fl.le])]; rfl
  obtain ⟨f2, _, _, _, _, _, _, _, skip2, _⟩ :=
    updateFromBaro_core
      (Atmosphere.init.updateFromBaro (.fin 101325) (.fin 15) (.fin (3/10)))
      (.fin 101325) (.fin 15) .nan
      (by rw [hum1]; norm_num) (by rw [hum1]; norm_num)
  refine ⟨?_, ?_⟩
  · rw [f2, o1, show Atmosphere.init.baro_offset_pa = 0 from rfl]
    norm_num [pressureEvent, temperatureEvent, humidityEvent, Fl.le]
  · rw [skip2 rfl, hum1]

/-- The LRF acceptance gate of BCE_Engine::update (bce_engine.cpp lines
127-142): frame valid, range finite and in (0, BCE_MAX_RANGE_M], and
confidence either not comparing > 0 (which includes NaN) or finite, in
[0, 1] and at least BCE_LRF_MIN_CONFIDENCE. -/
def lrfAccept (f : SensorFrame) : Bool :=
  f.lrf_valid &&
    (f.lrf_range_m.isFinite && Fl.lt (.fin 0) f.lrf_range_m &&
      Fl.le f.lrf_range_m (.fin ((BCE_MAX_RANGE_M : ℕ) : ℚ))) &&
    (!(Fl.lt (.fin 0) f.lrf_confidence) ||
      ((f.lrf_confidence.isFinite && Fl.le (.fin 0) f.lrf_confidence &&
        Fl.le f.lrf_confidence (.fin 1)) &&
        Fl.le (.fin BCE_LRF_MIN_CONFIDENCE) f.lrf_confidence))

/-- The LRF invalid-input condition of BCE_Engine::update (bce_engine.cpp
lines 124-126 and 139-141): frame valid and either a non-finite range, or a
confidence that compares > 0 but is not finite-in-[0, 1].  A NaN confidence
compares > 0 false, so it never latches. -/
def lrfLatch (f : SensorFrame) : Bool :=
  f.lrf_valid &&
    (!f.lrf_range_m.isFinite ||
      (Fl.lt (.fin 0) f.lrf_confidence &&
        !(f.lrf_confidence.isFinite && Fl.le (.fin 0) f.lrf_confidence &&
          Fl.le f.lrf_confidence (.fin 1))))

/-- Full characterisation of the LRF section of BCE_Engine::update:
acceptance happens exactly on lrfAccept, the invalid-input latch fires
exactly on lrfLatch (on top of its previous value), acceptance stores the
raw range, IIR-filters with alpha = 0.2, records the timestamp and
snapshots the quaternion, and a rejected frame leaves the LRF cache
untouched. -/
theorem lrfStep_core (f : SensorFrame) (s : BCE_Engine) :
    (BCE_Engine.lrfStep f s).has_range = (s.has_range || lrfAccept f) ∧
    (BCE_Engine.lrfStep f s).had_invalid_sensor_input =
      (s.had_invalid_sensor_input || lrfLatch f) ∧
    (lrfAccept f = true →
      (BCE_Engine.lrfStep f s).lrf_range_m = f.lrf_range_m.toQ ∧
      (BCE_Engine.lrfStep f s).lrf_timestamp_us = f.lrf_timestamp_us ∧
      (BCE_Engine.lrfStep f s).lrf_quaternion = s.ahrs.getQuaternion ∧
      (BCE_Engine.lrfStep f s).lrf_range_filtered_m =
        (if s.has_range then
          BCE_LRF_FILTER_ALPHA * f.lrf_range_m.toQ +
            (1 - BCE_LRF_FILTER_ALPHA) * s.lrf_range_filtered_m
         else f.lrf_range_m.toQ)) ∧
    (lrfAccept f = false →
      (BCE_Engine.lrfStep f s).has_range = s.has_range ∧
      (BCE_Engine.lrfStep f s).lrf_range_m = s.lrf_range_m ∧
      (BCE_Engine.lrfStep f s).lrf_range_filtered_m = s.lrf_range_filtered_m ∧
      (BCE_Engine.lrfStep f s).lrf_timestamp_us = s.lrf_timestamp_us ∧
      (BCE_Engine.lrfStep f s).lrf_quaternion = s.lrf_quaternion) := by
  unfold BCE_Engine.lrfStep lrfAccept lrfLatch
  by_cases hv : f.lrf_valid = true <;>
    [skip; simp_all]
  simp only [hv]
  split_ifs <;> simp_all
  all_goals
    rename_i hacc himp hrange
    intro hp
    rcases hacc.2 with h | h
    · rw [hp] at h
      exact absurd h (by simp)
    · first
        | exact h.2
        | (intro hmin
           rw [h.2] at hmin
           exact absurd hmin (by simp))

/-- C3: acceptance of an LRF reading during update is exactly lrfAccept
(frame valid, finite range in (0, 2500], confidence either not comparing
greater than 0 — which includes NaN — or finite in [0,1] and at least 0.5),
with stored range, IIR filter with alpha = 0.2, timestamp and quaternion
snapshot on acceptance and an untouched cache on rejection; the
had_invalid_sensor_input latch fires exactly on lrfLatch (non-finite range,
or a confidence comparing greater than 0 that is not finite-in-[0,1]), so a
NaN confidence is treated as unprovided: it is accepted and never latches. -/
theorem lrf_acceptance_spec (f : SensorFrame) (s : BCE_Engine) :
    (BCE_Engine.lrfStep f s).has_range = (s.has_range || lrfAccept f) ∧
    (BCE_Engine.lrfStep f s).had_invalid_sensor_input =
      (s.had_invalid_sensor_input || lrfLatch f) ∧
    (lrfAccept f = true →
      (BCE_Engine.lrfStep f s).lrf_range_m = f.lrf_range_m.toQ ∧
      (BCE_Engine.lrfStep f s).lrf_timestamp_us = f.lrf_timestamp_us ∧
      (BCE_Engine.lrfStep f s).lrf_quaternion = s.ahrs.getQuaternion ∧
      (BCE_Engine.lrfStep f s).lrf_range_filtered_m =
        (if s.has_range then
          BCE_LRF_FILTER_ALPHA * f.lrf_range_m.toQ +
            (1 - BCE_LRF_FILTER_ALPHA) * s.lrf_range_filtered_m
         else f.lrf_range_m.toQ)) ∧
    (lrfAccept f = false →
      (BCE_Engine.lrfStep f s).has_range = s.has_range ∧
      (BCE_Engine.lrfStep f s).lrf_range_m = s.lrf_range_m ∧
      (BCE_Engine.lrfStep f s).lrf_range_filtered_m = s.lrf_range_filtered_m ∧
      (BCE_Engine.lrfStep f s).lrf_timestamp_us = s.lrf_timestamp_us ∧
      (BCE_Engine.lrfStep f s).lrf_quaternion = s.lrf_quaternion) :=
  lrfStep_core f s

/-- A sensor frame carrying a valid 100 m LRF return with NaN confidence. -/
def c3Frame : SensorFrame :=
  { timestamp_us := 2000
    accel_x := .fin 0
    accel_y := .fin 0
    accel_z := .fin 1
    gyro_x := .fin 0
    gyro_y := .fin 0
    gyro_z := .fin 0
    imu_valid := false
    mag_x := .fin 0
    mag_y := .fin 0
    mag_z := .fin 0
    mag_valid := false
    baro_pressure_pa := .fin 101325
    baro_temperature_c := .fin 15
    baro_humidity := .fin (1/2)
    baro_valid := false
    baro_humidity_valid := false
    lrf_range_m := .fin 100
    lrf_timestamp_us := 1500
    lrf_confidence := .nan
    lrf_valid := true
    encoder_focal_length_mm := .fin 0
    encoder_valid := false }

/-- Witness for lrf_acceptance_spec on a concrete accepted frame. -/
theorem lrf_acceptance_spec_witness :
    lrfAccept c3Frame = true ∧
    (BCE_Engine.lrfStep c3Frame BCE_Engine.initEngine).lrf_range_m =
      Fl.toQ c3Frame.lrf_range_m ∧
    (BCE_Engine.lrfStep c3Frame BCE_Engine.initEngine).lrf_timestamp_us =
      c3Frame.lrf_timestamp_us := by
  have hacc : lrfAccept c3Frame = true := by
    norm_num [lrfAccept, c3Frame, Fl.lt, Fl.le, Fl.isFinite, BCE_MAX_RANGE_M]
  obtain ⟨_, _, haccres, _⟩ := lrf_acceptance_spec c3Frame BCE_Engine.initEngine
  exact ⟨hacc, (haccres hacc).1, (haccres hacc).2.1⟩

/-- Counterexample to C3 as stated: a frame with a valid finite 100 m range
and NaN confidence.  Under IEEE comparisons NaN is neither <= 0
("unprovided") nor inside [0.5, 1], so the claim predicts rejection and an
invalid-input latch; the code computes confidence_provided = (NaN > 0) =
false, treats the confidence as unprovided, accepts the reading and leaves
the latch clear. -/
theorem lrf_nan_confidence_counterexample :
    Fl.le c3Frame.lrf_confidence (.fin 0) = false ∧
    Fl.le (.fin (1/2)) c3Frame.lrf_confidence = false ∧
    (BCE_Engine.lrfStep c3Frame BCE_Engine.initEngine).has_range = true ∧
    (BCE_Engine.lrfStep c3Frame BCE_Engine.initEngine).lrf_range_m = 100 ∧
    (BCE_Engine.lrfStep c3Frame BCE_Engine.initEngine).had_invalid_sensor_input
      = false := by
  have hacc : lrfAccept c3Frame = true := by
    norm_num [lrfAccept, c3Frame, Fl.lt, Fl.le, Fl.isFinite, BCE_MAX_RANGE_M]
  have hlatch : lrfLatch c3Frame = false := by
    norm_num [lrfLatch, c3Frame, Fl.lt, Fl.le, Fl.isFinite]
  obtain ⟨h1, h2, h3, _⟩ := lrfStep_core c3Frame BCE_Engine.initEngine
  refine ⟨rfl, rfl, ?_, ?_, ?_⟩
  · rw [h1, hacc]
    simp [BCE_Engine.initEngine]
  · rw [(h3 hacc).1]
    rfl
  · rw [h2, hlatch]
    simp [BCE_Engine.initEngine]

/-- ORing any constant below bit 6 leaves the SENSOR_INVALID (bit 6) mask
unchanged. -/
theorem or_lt64_and64 (x k : ℕ) (hk : k < 64) : (x ||| k) &&& 64 = x &&& 64 := by
  apply Nat.eq_of_testBit_eq
  intro i
  rw [show (64 : ℕ) = 2 ^ 6 from rfl]
  simp only [Nat.testBit_and, Nat.testBit_or, Nat.testBit_two_pow]
  by_cases h6 : 6 = i
  · subst h6
    have hb : k.testBit 6 = false := Nat.testBit_lt_two_pow (by norm_num at hk ⊢; omega)
    simp [hb]
  · simp [h6]

/-- ORing SENSOR_INVALID makes the bit-6 mask exactly 64. -/
theorem or64_and64 (x : ℕ) : (x ||| 64) &&& 64 = 64 := by
  apply Nat.eq_of_testBit_eq
  intro i
  simp only [Nat.testBit_and, Nat.testBit_or]
  cases h : (64 : ℕ).testBit i <;> simp

theorem or_si_NO_RANGE (x : ℕ) :
    (x ||| BCE_Fault.NO_RANGE) &&& BCE_Fault.SENSOR_INVALID =
      x &&& BCE_Fault.SENSOR_INVALID :=
  or_lt64_and64 x _ (by norm_num [BCE_Fault.NO_RANGE])

theorem or_si_NO_BULLET (x : ℕ) :
    (x ||| BCE_Fault.NO_BULLET) &&& BCE_Fault.SENSOR_INVALID =
      x &&& BCE_Fault.SENSOR_INVALID :=
  or_lt64_and64 x _ (by norm_num [BCE_Fault.NO_BULLET])

theorem or_si_NO_MV (x : ℕ) :
    (x ||| BCE_Fault.NO_MV) &&& BCE_Fault.SENSOR_INVALID =
      x &&& BCE_Fault.SENSOR_INVALID :=
  or_lt64_and64 x _ (by norm_num [BCE_Fault.NO_MV])

theorem or_si_NO_BC (x : ℕ) :
    (x ||| BCE_Fault.NO_BC) &&& BCE_Fault.SENSOR_INVALID =
      x &&& BCE_Fault.SENSOR_INVALID :=
  or_lt64_and64 x _ (by norm_num [BCE_Fault.NO_BC])

theorem or_si_ZERO_UNSOLVABLE (x : ℕ) :
    (x ||| BCE_Fault.ZERO_UNSOLVABLE) &&& BCE_Fault.SENSOR_INVALID =
      x &&& BCE_Fault.SENSOR_INVALID :=
  or_lt64_and64 x _ (by norm_num [BCE_Fault.ZERO_UNSOLVABLE])

theorem or_si_AHRS_UNSTABLE (x : ℕ) :
    (x ||| BCE_Fault.AHRS_UNSTABLE) &&& BCE_Fault.SENSOR_INVALID =
      x &&& BCE_Fault.SENSOR_INVALID :=
  or_lt64_and64 x _ (by norm_num [BCE_Fault.AHRS_UNSTABLE])

/-- The range check never touches SENSOR_INVALID, the atmosphere or the
frame latch. -/
theorem rangeFaultStage_core (n : ℕ) (s : BCE_Engine) :
    (BCE_Engine.rangeFaultStage n s).fault_flags &&& BCE_Fault.SENSOR_INVALID =
      s.fault_flags &&& BCE_Fault.SENSOR_INVALID ∧
    (BCE_Engine.rangeFaultStage n s).atmo = s.atmo ∧
    (BCE_Engine.rangeFaultStage n s).had_invalid_sensor_input =
      s.had_invalid_sensor_input := by
  unfold BCE_Engine.rangeFaultStage
  split_ifs <;> exact ⟨by simp only [or_si_NO_RANGE], rfl, rfl⟩

/-- The bullet checks never touch SENSOR_INVALID, the atmosphere or the
frame latch. -/
theorem bulletFaultStage_core (s : BCE_Engine) :
    (BCE_Engine.bulletFaultStage s).fault_flags &&& BCE_Fault.SENSOR_INVALID =
      s.fault_flags &&& BCE_Fault.SENSOR_INVALID ∧
    (BCE_Engine.bulletFaultStage s).atmo = s.atmo ∧
    (BCE_Engine.bulletFaultStage s).had_invalid_sensor_input =
      s.had_invalid_sensor_input := by
  unfold BCE_Engine.bulletFaultStage
  dsimp only
  split_ifs <;>
    exact ⟨by simp only [or_si_NO_BULLET, or_si_NO_MV, or_si_NO_BC,
      or_si_ZERO_UNSOLVABLE], rfl, rfl⟩

/-- The AHRS check never touches SENSOR_INVALID, the atmosphere or the
frame latch. -/
theorem ahrsFaultStage_core (s : BCE_Engine) :
    (BCE_Engine.ahrsFaultStage s).fault_flags &&& BCE_Fault.SENSOR_INVALID =
      s.fault_flags &&& BCE_Fault.SENSOR_INVALID ∧
    (BCE_Engine.ahrsFaultStage s).atmo = s.atmo ∧
    (BCE_Engine.ahrsFaultStage s).had_invalid_sensor_input =
      s.had_invalid_sensor_input := by
  unfold BCE_Engine.ahrsFaultStage
  split_ifs <;> exact ⟨by simp only [or_si_AHRS_UNSTABLE], rfl, rfl⟩

/-- The diagnostic checks never touch the fault bitmap, the atmosphere or
the frame latch. -/
theorem diagStage_core (s : BCE_Engine) :
    (BCE_Engine.diagStage s).fault_flags = s.fault_flags ∧
    (BCE_Engine.diagStage s).atmo = s.atmo ∧
    (BCE_Engine.diagStage s).had_invalid_sensor_input =
      s.had_invalid_sensor_input := by
  unfold BCE_Engine.diagStage
  dsimp only
  split_ifs <;> exact ⟨rfl, rfl, rfl⟩

/-- recomputeZero can only OR in ZERO_UNSOLVABLE, so it never changes the
SENSOR_INVALID mask. -/
theorem recomputeZero_sensor_bit (s : BCE_Engine) :
    (s.recomputeZero).fault_flags &&& BCE_Fault.SENSOR_INVALID =
      s.fault_flags &&& BCE_Fault.SENSOR_INVALID := by
  unfold BCE_Engine.recomputeZero
  dsimp only
  split_ifs with h1 h2
  · rfl
  · simp only [or_si_ZERO_UNSOLVABLE]
  · split
    · simp only [or_si_ZERO_UNSOLVABLE]
    · rfl

/-- computeSolution can only OR in ZERO_UNSOLVABLE (directly or through
recomputeZero), so it never changes the SENSOR_INVALID mask. -/
theorem computeSolution_sensor_bit (s : BCE_Engine) :
    (s.computeSolution).fault_flags &&& BCE_Fault.SENSOR_INVALID =
      s.fault_flags &&& BCE_Fault.SENSOR_INVALID := by
  unfold BCE_Engine.computeSolution
  dsimp only
  split_ifs <;>
    first
      | rfl
      | simp only [or_si_ZERO_UNSOLVABLE, recomputeZero_sensor_bit]

/-- Mode selection never changes the SENSOR_INVALID mask. -/
theorem modeStage_sensor_bit (s : BCE_Engine) :
    (BCE_Engine.modeStage s).fault_flags &&& BCE_Fault.SENSOR_INVALID =
      s.fault_flags &&& BCE_Fault.SENSOR_INVALID := by
  unfold BCE_Engine.modeStage
  dsimp only
  split_ifs <;>
    first
      | rfl
      | simp only [computeSolution_sensor_bit]

/-- Given a clear bit on entry, the SENSOR_INVALID stage sets the bit
exactly when the atmosphere flag or the frame latch is set. -/
theorem sensorInvalidStage_bit (s : BCE_Engine)
    (h : s.fault_flags &&& BCE_Fault.SENSOR_INVALID = 0) :
    ((BCE_Engine.sensorInvalidStage s).fault_flags &&& BCE_Fault.SENSOR_INVALID ≠ 0 ↔
      (s.atmo.had_invalid_input || s.had_invalid_sensor_input) = true) := by
  unfold BCE_Engine.sensorInvalidStage
  split_ifs with hc
  · constructor
    · intro _
      exact hc
    · intro _
      show (s.fault_flags ||| BCE_Fault.SENSOR_INVALID) &&& BCE_Fault.SENSOR_INVALID ≠ 0
      rw [show BCE_Fault.SENSOR_INVALID = 64 from rfl, or64_and64]
      norm_num
  · simp [h, hc]

/-- The SENSOR_INVALID bit of the rebuilt fault bitmap reflects exactly the
atmosphere invalid-input flag and the frame latch as they stand when
evaluateState runs. -/
theorem evaluateState_sensor_bit (n : ℕ) (s : BCE_Engine) :
    ((BCE_Engine.evaluateState n s).fault_flags &&& BCE_Fault.SENSOR_INVALID ≠ 0) ↔
      (s.atmo.had_invalid_input || s.had_invalid_sensor_input) = true := by
  unfold BCE_Engine.evaluateState
  dsimp only
  obtain ⟨b1, a1, l1⟩ :=
    rangeFaultStage_core n { s with fault_flags := 0, diag_flags := s.atmo.diag_flags }
  obtain ⟨b2, a2, l2⟩ := bulletFaultStage_core
    (BCE_Engine.rangeFaultStage n { s with fault_flags := 0, diag_flags := s.atmo.diag_flags })
  obtain ⟨b3, a3, l3⟩ := ahrsFaultStage_core _
  obtain ⟨b4, a4, l4⟩ := diagStage_core _
  rw [modeStage_sensor_bit]
  rw [sensorInvalidStage_bit _ (by rw [b4, b3, b2, b1]; norm_num)]
  rw [a4, a3, a2, a1, l4, l3, l2, l1]

/-- The IMU section neither reads nor clears the fault and diagnostic
bitmaps: it commutes with overwriting them. -/
theorem imuStep_commute (f : SensorFrame) (s : BCE_Engine) (ff dd : ℕ) :
    BCE_Engine.imuStep f { s with fault_flags := ff, diag_flags := dd } =
      { BCE_Engine.imuStep f s with fault_flags := ff, diag_flags := dd } := by
  cases s
  unfold BCE_Engine.imuStep
  dsimp only
  split_ifs <;> rfl

/-- The barometer section neither reads nor clears the fault bitmap and
reads the diagnostic bitmap not at all: it commutes with overwriting
both. -/
theorem baroStep_commute (f : SensorFrame) (s : BCE_Engine) (ff dd : ℕ) :
    BCE_Engine.baroStep f { s with fault_flags := ff, diag_flags := dd } =
      { BCE_Engine.baroStep f s with fault_flags := ff, diag_flags := dd } := by
  cases s
  unfold BCE_Engine.baroStep
  dsimp only
  split_ifs <;> rfl

/-- The LRF section neither reads nor clears the fault and diagnostic
bitmaps: it commutes with overwriting them. -/
theorem lrfStep_commute (f : SensorFrame) (s : BCE_Engine) (ff dd : ℕ) :
    BCE_Engine.lrfStep f { s with fault_flags := ff, diag_flags := dd } =
      { BCE_Engine.lrfStep f s with fault_flags := ff, diag_flags := dd } := by
  cases s
  unfold BCE_Engine.lrfStep
  dsimp only
  split_ifs <;> rfl

/-- evaluateState starts by overwriting both bitmaps, so their previous
values are irrelevant. -/
theorem evaluateState_forgets (n : ℕ) (s : BCE_Engine) (ff dd : ℕ) :
    BCE_Engine.evaluateState n { s with fault_flags := ff, diag_flags := dd } =
      BCE_Engine.evaluateState n s := by
  cases s
  rfl

/-- Resetting the frame latch commutes with overwriting the latch and the
two bitmaps. -/
theorem resetLatch_collapse (s : BCE_Engine) (b : Bool) (ff dd : ℕ) :
    { { s with had_invalid_sensor_input := b, fault_flags := ff, diag_flags := dd }
        with had_invalid_sensor_input := false } =
      { { s with had_invalid_sensor_input := false }
          with fault_flags := ff, diag_flags := dd } := by
  cases s
  rfl

/-- update with a non-null frame produces a state independent of the
previous frame latch and bitmaps. -/
theorem update_forgets (f : SensorFrame) (s : BCE_Engine) (b : Bool) (ff dd : ℕ) :
    BCE_Engine.update (some f)
        { s with had_invalid_sensor_input := b, fault_flags := ff, diag_flags := dd } =
      BCE_Engine.update (some f) s := by
  unfold BCE_Engine.update
  dsimp only
  rw [imuStep_commute f { s with had_invalid_sensor_input := false } ff dd]
  rw [baroStep_commute f
    (BCE_Engine.imuStep f { s with had_invalid_sensor_input := false }) ff dd]
  rw [lrfStep_commute f (BCE_Engine.baroStep f
    (BCE_Engine.imuStep f { s with had_invalid_sensor_input := false })) ff dd]
  rw [evaluateState_forgets f.timestamp_us (BCE_Engine.lrfStep f (BCE_Engine.baroStep f
    (BCE_Engine.imuStep f { s with had_invalid_sensor_input := false }))) ff dd]

/-- The IMU-section invalid-input condition of BCE_Engine::update
(bce_engine.cpp lines 71-75 and the magnetometer finiteness check): frame
IMU valid and either a non-finite accel/gyro component or a valid-but-non-
finite magnetometer sample. -/
def imuLatch (f : SensorFrame) : Bool :=
  f.imu_valid &&
    (!(f.accel_x.isFinite && f.accel_y.isFinite && f.accel_z.isFinite &&
       f.gyro_x.isFinite && f.gyro_y.isFinite && f.gyro_z.isFinite) ||
     (f.mag_valid && !(f.mag_x.isFinite && f.mag_y.isFinite && f.mag_z.isFinite)))

/-- The IMU section latches had_invalid_sensor_input exactly on imuLatch. -/
theorem imuStep_latch (f : SensorFrame) (s : BCE_Engine) :
    (BCE_Engine.imuStep f s).had_invalid_sensor_input =
      (s.had_invalid_sensor_input || imuLatch f) := by
  unfold BCE_Engine.imuStep imuLatch
  by_cases hv : f.imu_valid = true <;>
    [skip; simp_all]
  simp only [hv]
  split_ifs <;> simp_all

/-- The IMU section never touches the atmosphere. -/
theorem imuStep_atmo (f : SensorFrame) (s : BCE_Engine) :
    (BCE_Engine.imuStep f s).atmo = s.atmo := by
  unfold BCE_Engine.imuStep
  dsimp only
  split_ifs <;> rfl

/-- The barometer section never touches the frame latch. -/
theorem baroStep_latch (f : SensorFrame) (s : BCE_Engine) :
    (BCE_Engine.baroStep f s).had_invalid_sensor_input =
      s.had_invalid_sensor_input := by
  unfold BCE_Engine.baroStep
  split_ifs <;> rfl

/-- Without a valid barometer frame the atmosphere is untouched. -/
theorem baroStep_atmo (f : SensorFrame) (s : BCE_Engine)
    (h : f.baro_valid = false) :
    (BCE_Engine.baroStep f s).atmo = s.atmo := by
  unfold BCE_Engine.baroStep
  rw [if_neg (by simp [h])]

/-- The LRF section never touches the atmosphere. -/
theorem lrfStep_atmo (f : SensorFrame) (s : BCE_Engine) :
    (BCE_Engine.lrfStep f s).atmo = s.atmo := by
  unfold BCE_Engine.lrfStep
  dsimp only
  split_ifs <;> rfl

/-- C9: the fault bitmap carries no memory across updates.  update gives the
same result whatever the previous frame latch, fault bitmap and diagnostic
bitmap were; after an update the SENSOR_INVALID bit is set exactly when
this frame latched an IMU/magnetometer or LRF sanitisation event or the
atmosphere flag (rewritten by this frame's baro channel when present) is
set; and without a valid baro channel the atmosphere state — hence its
invalid-input flag, the only other SENSOR_INVALID source — is exactly the
one left by the most recent barometer update. -/
theorem sensor_invalid_no_memory (f : SensorFrame) (s : BCE_Engine)
    (b : Bool) (ff dd : ℕ) :
    BCE_Engine.update (some f)
        { s with had_invalid_sensor_input := b, fault_flags := ff, diag_flags := dd } =
      BCE_Engine.update (some f) s ∧
    ((BCE_Engine.update (some f) s).fault_flags &&& BCE_Fault.SENSOR_INVALID ≠ 0 ↔
      ((BCE_Engine.baroStep f (BCE_Engine.imuStep f
          { s with had_invalid_sensor_input := false })).atmo.had_invalid_input ||
        (imuLatch f || lrfLatch f)) = true) ∧
    (f.baro_valid = false →
      (BCE_Engine.baroStep f (BCE_Engine.imuStep f
          { s with had_invalid_sensor_input := false })).atmo = s.atmo) := by
  refine ⟨update_forgets f s b ff dd, ?_, ?_⟩
  · have hupd : BCE_Engine.update (some f) s =
        BCE_Engine.evaluateState f.timestamp_us (BCE_Engine.lrfStep f (BCE_Engine.baroStep f
          (BCE_Engine.imuStep f { s with had_invalid_sensor_input := false }))) := rfl
    rw [hupd, evaluateState_sensor_bit, lrfStep_atmo]
    obtain ⟨_, hl, _, _⟩ := lrfStep_core f (BCE_Engine.baroStep f
      (BCE_Engine.imuStep f { s with had_invalid_sensor_input := false }))
    rw [hl, baroStep_latch, imuStep_latch]
    simp [Bool.or_assoc]
  · intro hb
    rw [baroStep_atmo f _ hb, imuStep_atmo]

/-- Witness for sensor_invalid_no_memory: a polluted initial engine
(latched invalid input, stale fault and diagnostic bits) updated with a
concrete frame gives the same state as the clean engine, and the frame has
no baro channel, so the atmosphere is untouched. -/
theorem sensor_invalid_no_memory_witness :
    BCE_Engine.update (some c3Frame)
        { BCE_Engine.initEngine with
          had_invalid_sensor_input := true
          fault_flags := 127
          diag_flags := 255 } =
      BCE_Engine.update (some c3Frame) BCE_Engine.initEngine ∧
    c3Frame.baro_valid = false ∧
    (BCE_Engine.baroStep c3Frame (BCE_Engine.imuStep c3Frame
        { BCE_Engine.initEngine with had_invalid_sensor_input := false })).atmo =
      BCE_Engine.initEngine.atmo := by
  obtain ⟨h1, _, h3⟩ :=
    sensor_invalid_no_memory c3Frame BCE_Engine.initEngine true 127 255
  exact ⟨h1, rfl, h3 rfl⟩

/-- Bitwise absorption: masking an OR by its own right operand gives the
operand. -/
theorem or_and_absorb (x k : ℕ) : (x ||| k) &&& k = k := by
  apply Nat.eq_of_testBit_eq
  intro i
  simp only [Nat.testBit_and, Nat.testBit_or]
  cases h : k.testBit i <;> simp

/-- A state short of the range whose speed is below the 30 m/s floor makes
the integration loop stop immediately. -/
theorem integLoop_break (P : SolverParams) (z : ℝ) (fill : Bool) (fuel : ℕ)
    (st : BallisticSolver.IntegState) (hx : st.x < z)
    (hv : Real.sqrt (st.vx * st.vx + st.vy * st.vy + st.vz * st.vz) <
      ((BCE_MIN_VELOCITY : ℚ) : ℝ)) :
    BallisticSolver.integLoop P z fill fuel st = st := by
  cases fuel with
  | zero => rfl
  | succ n =>
    rw [BallisticSolver.integLoop]
    rw [if_pos hx]
    dsimp only
    rw [if_pos hv]

/-- A muzzle velocity below the 30 m/s floor (at any launch angle) never
reaches a positive range: integrateToRange returns no drop. -/
theorem integrateToRange_slow (sol : BallisticSolver) (P : SolverParams)
    (z : ℝ) (fill : Bool) (hz : 0 < z)
    (hmv0 : 0 ≤ P.muzzle_velocity_ms) (hmv : P.muzzle_velocity_ms < 30) :
    (sol.integrateToRange P z fill).2 = none := by
  unfold BallisticSolver.integrateToRange
  dsimp only
  have hsum : P.muzzle_velocity_ms * Real.cos P.launch_angle_rad *
        (P.muzzle_velocity_ms * Real.cos P.launch_angle_rad) +
      P.muzzle_velocity_ms * Real.sin P.launch_angle_rad *
        (P.muzzle_velocity_ms * Real.sin P.launch_angle_rad) +
      (0 : ℝ) * 0 = P.muzzle_velocity_ms ^ 2 := by
    have hsc := Real.sin_sq_add_cos_sq P.launch_angle_rad
    nlinarith [hsc]
  have hv : Real.sqrt (P.muzzle_velocity_ms * Real.cos P.launch_angle_rad *
        (P.muzzle_velocity_ms * Real.cos P.launch_angle_rad) +
      P.muzzle_velocity_ms * Real.sin P.launch_angle_rad *
        (P.muzzle_velocity_ms * Real.sin P.launch_angle_rad) +
      (0 : ℝ) * 0) < ((BCE_MIN_VELOCITY : ℚ) : ℝ) := by
    rw [hsum, Real.sqrt_sq hmv0]
    calc P.muzzle_velocity_ms < 30 := hmv
    _ = ((BCE_MIN_VELOCITY : ℚ) : ℝ) := by norm_num [BCE_MIN_VELOCITY]
  rw [integLoop_break P z fill BCE_MAX_SOLVER_ITERATIONS]
  · dsimp only
    rw [if_pos hz]
  · exact hz
  · exact hv

/-- When every probe fails to reach the zero range, the bisection never
declares success. -/
theorem solveLoop_none_unsolved (sol : BallisticSolver) (P : SolverParams)
    (z td : ℝ)
    (h : ∀ a, (sol.integrateToRange { P with launch_angle_rad := a } z false).2 = none) :
    ∀ fuel lo hi best lm,
      (BallisticSolver.solveLoop sol P z td fuel lo hi best lm).1 = false := by
  intro fuel
  induction fuel with
  | zero =>
    intro lo hi best lm
    rfl
  | succ n ih =>
    intro lo hi best lm
    rw [BallisticSolver.solveLoop]
    dsimp only
    rw [h ((lo + hi) * (1/2))]
    exact ih _ _ _ _

/-- When every probe fails to reach the zero range, solveZeroAngle reports
unsolvable. -/
theorem solveZeroAngle_none (sol : BallisticSolver) (P : SolverParams) (z : ℝ)
    (hz : ¬(z < 1 ∨ z > ((BCE_MAX_RANGE_M : ℕ) : ℝ)))
    (h : ∀ a, (sol.integrateToRange { P with launch_angle_rad := a } z false).2 = none) :
    sol.solveZeroAngle P z = none := by
  unfold BallisticSolver.solveZeroAngle
  rw [if_neg hz]
  dsimp only
  rw [solveLoop_none_unsolved sol P z (-P.sight_height_m) h BCE_ZERO_MAX_ITERATIONS
    (-5 * BCE_DEG_TO_RAD) (5 * BCE_DEG_TO_RAD) 0 P.launch_angle_rad]
  rw [if_neg (by norm_num)]
  rw [h _]

/-- When the zero is dirty, the configuration is in range but the zero solve
fails, computeSolution takes its FAULT exit: ZERO_UNSOLVABLE is ORed into
the fault bitmap, mode_ is set to FAULT and the published solution carries
solution_mode = FAULT. -/
theorem computeSolution_fault_exit (s : BCE_Engine)
    (hdirty : s.zero_dirty = true)
    (hb : s.has_bullet = true) (hz : s.has_zero = true)
    (hrange : ¬(s.zero.zero_range_m < 1 ∨
      s.zero.zero_range_m > ((BCE_MAX_RANGE_M : ℕ) : ℚ)))
    (hsolve : s.solver.solveZeroAngle
        (BCE_Engine.buildSolverParams { s with zero_dirty := false }
          ((s.zero.zero_range_m : ℚ) : ℝ))
        ((s.zero.zero_range_m : ℚ) : ℝ) = none) :
    s.computeSolution.fault_flags = s.fault_flags ||| BCE_Fault.ZERO_UNSOLVABLE ∧
    s.computeSolution.mode = BCE_Mode.FAULT ∧
    s.computeSolution.solution.solution_mode = BCE_Mode.FAULT.toU32 ∧
    s.computeSolution.solution.fault_flags =
      s.fault_flags ||| BCE_Fault.ZERO_UNSOLVABLE := by
  have hrz : s.recomputeZero =
      { { s with zero_dirty := false } with
        fault_flags := s.fault_flags ||| BCE_Fault.ZERO_UNSOLVABLE
        zero_angle_rad := 0 } := by
    unfold BCE_Engine.recomputeZero
    dsimp only
    rw [if_neg (by simp [hb, hz]), if_neg hrange, hsolve]
  unfold BCE_Engine.computeSolution
  dsimp only
  rw [if_pos hdirty, hrz]
  have hcond : ({ { s with zero_dirty := false } with
      fault_flags := s.fault_flags ||| BCE_Fault.ZERO_UNSOLVABLE
      zero_angle_rad := 0 } : BCE_Engine).fault_flags &&&
      BCE_Fault.ZERO_UNSOLVABLE ≠ 0 := by
    dsimp only
    rw [or_and_absorb]
    norm_num [BCE_Fault.ZERO_UNSOLVABLE]
  rw [if_pos hcond]
  exact ⟨rfl, rfl, rfl, rfl⟩
